import Mathlib

/-!
# BigBottle — Receipt-to-Reward Claim Pipeline: verification development

Shallow embedding of the core of the BigBottle backend
(`apps/api/src/*.ts` plus the SQL functions and unique indexes of
`supabase/migrations/*.sql`), together with theorems settling the frozen
claims about the natural-language specification.

Modelling conventions:
* JavaScript / JSON dynamic values are modelled by `JsVal`; finite JS numbers
  are modelled as integers (the receipt payload's numeric fields are integral,
  so `Math.floor` is the identity on them), and `jother` covers `undefined`,
  `NaN`, infinities and non-scalar values.
* Database tables are modelled as lists of rows; the unique indexes of the
  migrations turn into explicit conflict checks whose violation is surfaced
  as an `Except.error`, exactly the control flow the TypeScript handlers
  react to via `isUniqueViolation`.
* The SHA-256 digest used by `bb_receipt_fingerprint` is abstracted as a hash
  parameter `h : String → String`; collision-freedom (`Function.Injective h`)
  is assumed exactly where a claim needs distinct digests.
-/

/-- Dynamic JS/JSON scalar values as they appear in the extraction payload.
Finite JS numbers are modelled as integers; `jother` covers `undefined`,
`NaN`, infinities, objects, arrays, … (anything that is neither a finite
number, a string, a boolean nor `null`). -/
inductive JsVal where
  | jnull
  | jstr (s : String)
  | jnum (n : Int)
  | jbool (b : Bool)
  | jother
deriving DecidableEq

/-- Value of a (pre-trimmed) decimal digit run. -/
def digitsToNat (ds : List Char) : Nat :=
  ds.foldl (fun acc c => acc * 10 + (c.toNat - '0'.toNat)) 0

/-- Model of JavaScript `Number.parseInt(s, 10)` on an already-trimmed string:
an optional sign followed by a leading run of decimal digits; `none` models
`NaN` (no digits). Trailing non-digit characters are ignored, as in JS. -/
def parseIntJs (s : String) : Except Unit Int :=
  let go : List Char → Except Unit Int := fun cs =>
    let ds := cs.takeWhile Char.isDigit
    if ds.isEmpty then .error () else .ok (digitsToNat ds : Int)
  match s.data with
  | '-' :: rest => (go rest).map (fun n => -n)
  | '+' :: rest => go rest
  | cs => go cs

/-- JavaScript `String.prototype.trim()`: strip whitespace from both ends
(implemented over the character list so that it evaluates by reduction;
the built-in `String.trim` is byte-position based and does not). -/
def jsTrim (s : String) : String :=
  ⟨((s.data.dropWhile Char.isWhitespace).reverse.dropWhile Char.isWhitespace).reverse⟩

/-- Lower-casing, character by character (JS `toLowerCase()` / SQL `lower`). -/
def strLower (s : String) : String :=
  ⟨s.data.map Char.toLower⟩

/-! ## Scoring Engine (`apps/api/src/scoring.ts`) -/

def MAX_ITEMS : Nat := 25
def MAX_AMOUNT : Int := 20
def MAX_TOTAL_POINTS : Int := 500

/-- `clampInt` from `scoring.ts`. The `Number.isFinite` guard of the source
cannot fire here because `Int` models only finite numbers. -/
def clampInt (value lo hi : Int) : Int :=
  if value < lo then lo
  else if value > hi then hi
  else value

/-- One entry of the extraction service's `drinkList` (`DifyDrinkItem` in
`scoring.ts`): every field is dynamically typed. -/
structure DifyDrinkItem where
  retinfoDrinkName : JsVal
  retinfoDrinkCapacity : JsVal
  retinfoDrinkAmount : JsVal
deriving DecidableEq

/-- `parseCapacityMl` from `scoring.ts`: a positive integer, or `none`. -/
def parseCapacityMl : JsVal → Option Int
  | .jnum n => if n > 0 then some n else none
  | .jstr s =>
      let trimmed := jsTrim s
      if trimmed = "" then none
      else
        match parseIntJs trimmed with
        | .ok n => if n > 0 then some n else none
        | .error _ => none
  | _ => none

/-- `parseAmount` from `scoring.ts`: default `1`, clamped to `[1, 20]`. -/
def parseAmount : JsVal → Int
  | .jnum n => clampInt n 1 MAX_AMOUNT
  | .jstr s =>
      let trimmed := jsTrim s
      if trimmed = "" then 1
      else
        match parseIntJs trimmed with
        | .error _ => 1
        | .ok n => clampInt n 1 MAX_AMOUNT
  | _ => 1

/-- `pointsForCapacityMl` from `scoring.ts`: capacity tier table. -/
def pointsForCapacityMl : Option Int → Int
  | none => 0
  | some capacityMl =>
      if capacityMl < 500 then 0
      else if capacityMl < 1000 then 2
      else if capacityMl < 2000 then 10
      else 15

structure ScoredItem where
  capacityMl : Option Int
  amount : Int
  tierPoints : Int
  points : Int
deriving DecidableEq

structure ScoringResult where
  totalPoints : Int
  items : List ScoredItem
deriving DecidableEq

/-- `computeTotalPoints` from `scoring.ts`. The `unknown` argument is modelled
as `Option (List DifyDrinkItem)` with `none` for "not an array". -/
def computeTotalPoints (drinkList : Option (List DifyDrinkItem)) : ScoringResult :=
  let list := (drinkList.getD []).take MAX_ITEMS
  let items := list.map fun item =>
    let capacityMl := parseCapacityMl item.retinfoDrinkCapacity
    let amount := parseAmount item.retinfoDrinkAmount
    let tierPoints := pointsForCapacityMl capacityMl
    { capacityMl := capacityMl, amount := amount, tierPoints := tierPoints,
      points := tierPoints * amount : ScoredItem }
  let uncappedTotalPoints := items.foldl (fun sum i => sum + i.points) 0
  { totalPoints := min uncappedTotalPoints MAX_TOTAL_POINTS, items := items }

/-- Tier table exactly as the claim states it (`<500→0`, `[500,1000)→2`,
`[1000,2000)→10`, `≥2000→15`, unparsed capacity contributes `0`). -/
def claimTier : Option Int → Int
  | none => 0
  | some c => if c < 500 then 0 else if c < 1000 then 2 else if c < 2000 then 10 else 15

/-- The total as the claim describes it: `min(500, Σ over at most the first 25
items of tier(capacity) * amount)`. -/
def claimScoringTotal (dl : Option (List DifyDrinkItem)) : Int :=
  min 500
    (((dl.getD []).take 25).map fun it =>
      claimTier (parseCapacityMl it.retinfoDrinkCapacity) * parseAmount it.retinfoDrinkAmount).sum

theorem scoring_foldl_eq_sum (l : List ScoredItem) (a : Int) :
    l.foldl (fun sum i => sum + i.points) a = a + (l.map (fun i => i.points)).sum := by
  induction l generalizing a with
  | nil => simp
  | cons x xs ih => simp [List.foldl_cons, ih (a + x.points), add_assoc]

theorem claimTier_eq_pointsForCapacityMl (c : Option Int) :
    claimTier c = pointsForCapacityMl c := by
  cases c <;> rfl

/-- C5: the Scoring Engine's total equals
`min(500, Σ over at most the first 25 items of tier(capacity) * amount)`,
with capacity parsed to a positive integer (else 0 points), amount parsed
with default 1 and clamped to `[1,20]`, and the tier table
`<500→0, [500,1000)→2, [1000,2000)→10, ≥2000→15`. The function is a plain
Lean function of its argument, hence deterministic and side-effect free. -/
theorem computeTotalPoints_claim (dl : Option (List DifyDrinkItem)) :
    (computeTotalPoints dl).totalPoints = claimScoringTotal dl := by
  unfold computeTotalPoints claimScoringTotal MAX_ITEMS MAX_TOTAL_POINTS
  simp only [scoring_foldl_eq_sum, List.map_map, zero_add, claimTier_eq_pointsForCapacityMl]
  rw [min_comm]
  rfl

/-! ## Conversion Engine (`apps/api/src/rewards.ts`) -/

def B3TR_DECIMALS : Nat := 18

/-- `computeClaimableB3trWei` from `rewards.ts`. JS numbers are modelled as
integers, so the `Number.isInteger` guards of the source are always satisfied
and only the sign checks remain; the `bigint` arithmetic is exact. The
division only ever runs with a non-negative dividend and a positive divisor,
where JS `bigint` division (truncation) and Lean's `Int` division agree and
both compute the floor. -/
def computeClaimableB3trWei (pointsAvailable pointsPerB3tr : Int) : Except String Int :=
  if pointsAvailable < 0 then .error "points_available_invalid"
  else if pointsPerB3tr ≤ 0 then .error "points_per_b3tr_invalid"
  else if pointsAvailable = 0 then .ok 0
  else .ok (pointsAvailable * (10 : Int) ^ B3TR_DECIMALS / pointsPerB3tr)

/-- C4: for every integer `pointsAvailable ≥ 0` and integer `pointsPerB3tr > 0`
the Conversion Engine returns exactly `⌊pointsAvailable * 10^18 / pointsPerB3tr⌋`
(expressed through exact natural-number floor division); in particular
`convert 0 rate = .ok 0` for every valid rate and
`convert 1 3 = .ok 333333333333333333`. -/
theorem computeClaimableB3trWei_claim :
    (∀ p r : Int, 0 ≤ p → 0 < r →
      computeClaimableB3trWei p r = .ok (((p.toNat * 10 ^ 18) / r.toNat : Nat) : Int))
    ∧ (∀ r : Int, 0 < r → computeClaimableB3trWei 0 r = .ok 0)
    ∧ computeClaimableB3trWei 1 3 = .ok 333333333333333333 := by
  refine ⟨?_, ?_, by rfl⟩
  · intro p r hp hr
    obtain ⟨pn, rfl⟩ : ∃ pn : Nat, (pn : Int) = p := ⟨p.toNat, Int.toNat_of_nonneg hp⟩
    obtain ⟨rn, rfl⟩ : ∃ rn : Nat, (rn : Int) = r := ⟨r.toNat, Int.toNat_of_nonneg (le_of_lt hr)⟩
    have hrn : 0 < rn := by exact_mod_cast hr
    unfold computeClaimableB3trWei B3TR_DECIMALS
    have h1 : ¬ ((pn : Int) < 0) := not_lt.mpr (Int.natCast_nonneg pn)
    have h2 : ¬ ((rn : Int) ≤ 0) := not_le.mpr (by exact_mod_cast hrn)
    rcases Nat.eq_zero_or_pos pn with hz | hpos
    · subst hz
      simp [h2, Nat.zero_div]
    · have h3 : ¬ ((pn : Int) = 0) := by exact_mod_cast hpos.ne'
      simp only [h1, h2, h3, if_false, Int.toNat_natCast]
      push_cast
      rfl
  · intro r hr
    unfold computeClaimableB3trWei
    have h2 : ¬ ((r : Int) ≤ 0) := not_le.mpr hr
    simp [h2]

theorem computeClaimableB3trWei_claim_witness :
    computeClaimableB3trWei 5 10 = .ok ((((5 : Int).toNat * 10 ^ 18) / (10 : Int).toNat : Nat) : Int) ∧
    computeClaimableB3trWei 0 7 = .ok 0 :=
  ⟨computeClaimableB3trWei_claim.1 5 10 (by decide) (by decide),
   computeClaimableB3trWei_claim.2.1 7 (by decide)⟩

/-! ## Fingerprint Engine (`supabase/migrations/20260208_receipt_dedup.sql`,
function `bb_receipt_fingerprint`) -/

/-- SQL `trim(text)`: strip space characters from both ends. -/
def sqlTrim (s : String) : String :=
  ⟨((s.data.dropWhile (· = ' ')).reverse.dropWhile (· = ' ')).reverse⟩

/-- Characters matched by the `\s` class of the SQL regexps. -/
def isRegexSpace (c : Char) : Bool :=
  c = ' ' || c = '\t' || c = '\n' || c = '\r' || c = '\x0B' || c = '\x0C'

/-- Model of `regexp_replace(s, '\s+', ' ', 'g')`: every maximal run of
whitespace becomes a single space. The accumulator remembers whether the
previous character was part of a whitespace run. -/
def collapseWsAux : Bool → List Char → List Char
  | _, [] => []
  | prevWs, c :: rest =>
    if isRegexSpace c then
      if prevWs then collapseWsAux true rest
      else ' ' :: collapseWsAux true rest
    else c :: collapseWsAux false rest

/-- jsonb `item->>'field'`: the text form of a scalar field, `NULL` for a
JSON `null` or an absent key (`jother` also stands for the absent key). -/
def jsonText : JsVal → Option String
  | .jnull => none
  | .jstr s => some s
  | .jnum n => some (toString n)
  | .jbool b => some (if b then "true" else "false")
  | .jother => none

/-- `regexp_replace(lower(trim(coalesce(x, ''))), '\s+', ' ', 'g')` —
the normalized drink-name part of a fingerprint token. -/
def fpNormalizeName (name : Option String) : String :=
  ⟨collapseWsAux false (strLower (sqlTrim (name.getD ""))).data⟩

/-- `coalesce(nullif(regexp_replace(coalesce(x, ''), '[^0-9]', '', 'g'), ''), dflt)` —
the digit-only capacity/amount part of a fingerprint token. -/
def fpDigits (x : Option String) (dflt : String) : String :=
  let filtered : String := ⟨(x.getD "").data.filter Char.isDigit⟩
  if filtered = "" then dflt else filtered

/-- One item token `<normalized_name>|<capacity_int>|<amount_int>`. -/
def fpToken (item : DifyDrinkItem) : String :=
  fpNormalizeName (jsonText item.retinfoDrinkName) ++ "|" ++
    fpDigits (jsonText item.retinfoDrinkCapacity) "0" ++ "|" ++
    fpDigits (jsonText item.retinfoDrinkAmount) "1"

/-- The `time_minute` CTE: `NULL` when the raw time is `NULL` or its trimmed
form is shorter than 16 characters, else the first 16 characters of the
trimmed form (minute precision `YYYY-MM-DD HH:mm`). -/
def fpTimeMinute : Option String → Option String
  | none => none
  | some t =>
      let tr := sqlTrim t
      if tr.length < 16 then none
      else some ⟨tr.data.take 16⟩

/-- `string_agg(token, '||' order by token)`, `coalesce`d to `''`:
join the lexicographically sorted tokens with `||`. -/
def joinTokens : List String → String
  | [] => ""
  | [t] => t
  | t :: rest => t ++ "||" ++ joinTokens rest

def fpJoined (items : List DifyDrinkItem) : String :=
  joinTokens (List.insertionSort (· ≤ ·) (items.map fpToken))

/-- The `payload` CTE: `'v1|' || minute || '|' || joined_tokens`. -/
def fpPayload (minute : String) (items : List DifyDrinkItem) : String :=
  "v1|" ++ minute ++ "|" ++ fpJoined items

/-- `bb_receipt_fingerprint(receipt_time_raw, dify_drink_list)` with the
SHA-256 hex digest abstracted as `h`; `dify_drink_list` is `coalesce`d to the
empty array. -/
def bbReceiptFingerprint (h : String → String) (receiptTimeRaw : Option String)
    (drinkList : Option (List DifyDrinkItem)) : Option String :=
  match fpTimeMinute receiptTimeRaw with
  | none => none
  | some minute => some (h (fpPayload minute (drinkList.getD [])))

theorem insertionSort_eq_of_perm {l₁ l₂ : List String} (hp : l₁.Perm l₂) :
    List.insertionSort (· ≤ ·) l₁ = List.insertionSort (· ≤ ·) l₂ :=
  List.eq_of_perm_of_sorted
    ((List.perm_insertionSort _ l₁).trans (hp.trans (List.perm_insertionSort _ l₂).symm))
    (List.sorted_insertionSort _ l₁) (List.sorted_insertionSort _ l₂)

theorem string_eq_of_data_eq {s t : String} (h : s.data = t.data) : s = t := by
  cases s
  cases t
  exact congrArg String.mk h

theorem fpTimeMinute_length {t m : String} (h : fpTimeMinute (some t) = some m) :
    m.length = 16 := by
  unfold fpTimeMinute at h
  by_cases hl : (sqlTrim t).length < 16
  · simp [hl] at h
  · simp only [hl, if_false, Option.some.injEq] at h
    subst h
    have : (sqlTrim t).data.length = ((sqlTrim t)).length := rfl
    show ((sqlTrim t).data.take 16).length = 16
    rw [List.length_take]
    omega

theorem fpPayload_minute_inj {m₁ m₂ : String} {i₁ i₂ : List DifyDrinkItem}
    (h₁ : m₁.length = 16) (h₂ : m₂.length = 16)
    (h : fpPayload m₁ i₁ = fpPayload m₂ i₂) : m₁ = m₂ := by
  unfold fpPayload at h
  have hd := congrArg String.data h
  have hv : "v1|".data = ['v', '1', '|'] := rfl
  have hb : "|".data = ['|'] := rfl
  simp only [String.data_append, hv, hb, List.append_assoc, List.cons_append,
    List.nil_append, List.cons.injEq, true_and] at hd
  have hlen : m₁.data.length = m₂.data.length := by
    have e₁ : m₁.data.length = 16 := h₁
    have e₂ : m₂.data.length = 16 := h₂
    rw [e₁, e₂]
  exact string_eq_of_data_eq (List.append_inj hd hlen).1

/-- C7: the Fingerprint Engine is deterministic (it is a function) and
order-independent over the drink list: permuted drink lists yield the same
fingerprint for every receipt time; inputs whose minute-truncated timestamps
differ yield different fingerprints (assuming the digest `h` is
collision-free); and a `NULL` or too-short (trimmed length < 16) raw time
yields a `NULL` fingerprint. -/
theorem bbReceiptFingerprint_claim :
    (∀ (h : String → String) (t : Option String) (l₁ l₂ : List DifyDrinkItem),
      l₁.Perm l₂ →
        bbReceiptFingerprint h t (some l₁) = bbReceiptFingerprint h t (some l₂))
    ∧ (∀ (h : String → String) (t₁ t₂ : Option String)
        (d₁ d₂ : Option (List DifyDrinkItem)),
      Function.Injective h → fpTimeMinute t₁ ≠ fpTimeMinute t₂ →
        bbReceiptFingerprint h t₁ d₁ ≠ bbReceiptFingerprint h t₂ d₂)
    ∧ (∀ (h : String → String) (d : Option (List DifyDrinkItem)),
        bbReceiptFingerprint h none d = none)
    ∧ (∀ (h : String → String) (t : String) (d : Option (List DifyDrinkItem)),
        (sqlTrim t).length < 16 → bbReceiptFingerprint h (some t) d = none) := by
  refine ⟨?_, ?_, ?_, ?_⟩
  · intro h t l₁ l₂ hp
    unfold bbReceiptFingerprint
    cases fpTimeMinute t with
    | none => rfl
    | some minute =>
        simp only [Option.getD_some]
        have : fpJoined l₁ = fpJoined l₂ := by
          unfold fpJoined
          exact congrArg joinTokens (insertionSort_eq_of_perm (hp.map fpToken))
        unfold fpPayload
        rw [this]
  · intro h t₁ t₂ d₁ d₂ hinj hne
    unfold bbReceiptFingerprint
    match ht₁ : fpTimeMinute t₁, ht₂ : fpTimeMinute t₂ with
    | none, none => exact absurd (ht₁.trans ht₂.symm) hne
    | none, some m₂ => simp
    | some m₁, none => simp
    | some m₁, some m₂ =>
        simp only [ne_eq, Option.some.injEq]
        intro heq
        have hpay := hinj heq
        have hm₁ : m₁.length = 16 := by
          cases t₁ with
          | none => simp [fpTimeMinute] at ht₁
          | some s => exact fpTimeMinute_length ht₁
        have hm₂ : m₂.length = 16 := by
          cases t₂ with
          | none => simp [fpTimeMinute] at ht₂
          | some s => exact fpTimeMinute_length ht₂
        have : m₁ = m₂ := fpPayload_minute_inj hm₁ hm₂ hpay
        exact hne (by rw [ht₁, ht₂, this])
  · intro h d
    rfl
  · intro h t d hshort
    unfold bbReceiptFingerprint fpTimeMinute
    simp [hshort]

theorem bbReceiptFingerprint_claim_witness :
    (bbReceiptFingerprint id (some "2026-02-04 08:52:00")
        (some [⟨.jstr "Water", .jnum 500, .jnum 1⟩, ⟨.jstr "Cola", .jnum 1000, .jnum 2⟩]) =
      bbReceiptFingerprint id (some "2026-02-04 08:52:00")
        (some [⟨.jstr "Cola", .jnum 1000, .jnum 2⟩, ⟨.jstr "Water", .jnum 500, .jnum 1⟩]))
    ∧ bbReceiptFingerprint id (some "2026-02-04 08:52:00") none ≠
        bbReceiptFingerprint id (some "2026-02-04 08:53:00") none
    ∧ bbReceiptFingerprint id none none = none
    ∧ bbReceiptFingerprint id (some "2026-02-04") none = none :=
  ⟨bbReceiptFingerprint_claim.1 id _ _ _ (List.Perm.swap _ _ _),
   bbReceiptFingerprint_claim.2.1 id _ _ _ _ (fun _ _ hh => hh) (by decide),
   bbReceiptFingerprint_claim.2.2.1 id none,
   bbReceiptFingerprint_claim.2.2.2 id _ none (by decide)⟩

/-! ## Data model: submissions, conversion rates, reward claims
(`apps/api/src/supabase.ts` row types, `supabase/migrations/*.sql` tables) -/

/-- A `receipt_submissions` row (`DbReceiptSubmission` in `supabase.ts`).
The opaque raw-extraction blob (`dify_raw`) and the `verified_at`/`updated_at`
timestamps are omitted: no claim mentions them. `created_at` is modelled as a
`Nat` tick. -/
structure DbReceiptSubmission where
  id : String
  user_id : String
  client_submission_id : String
  status : String
  image_bucket : String
  image_key : String
  image_content_type : Option String
  dify_drink_list : Option (List DifyDrinkItem)
  receipt_time_raw : Option String
  retinfo_is_availd : Option String
  time_threshold : Option String
  points_total : Int
  receipt_fingerprint : Option String
  rejection_code : Option String
  duplicate_of : Option String
  created_at : Nat
deriving DecidableEq

/-- A `reward_conversion_rates` row. -/
structure DbRewardConversionRate where
  id : String
  points_per_b3tr : Int
  active : Bool
deriving DecidableEq

/-- A `reward_claims` row (`DbRewardClaim` in `supabase.ts`). The wei amount
is modelled as the exact integer the `numeric` column and the JS `bigint`
hold. -/
structure DbRewardClaim where
  id : String
  user_id : String
  wallet_address : String
  client_claim_id : String
  conversion_rate_id : String
  points_per_b3tr_snapshot : Int
  points_claimed : Int
  b3tr_amount_wei : Int
  status : String
  tx_hash : Option String
  raw_tx : Option String
  failure_reason : Option String
  created_at : Nat
deriving DecidableEq

/-- The relational store: one list of rows per table. -/
structure Db where
  submissions : List DbReceiptSubmission
  claims : List DbRewardClaim
  rates : List DbRewardConversionRate
deriving DecidableEq

def isInflightStatus (s : String) : Bool :=
  s = "pending" || s = "submitted"

def isLockedStatus (s : String) : Bool :=
  s = "pending" || s = "submitted" || s = "confirmed"

/-- SQL `bb_user_points_total(user_id)`
(`supabase/migrations/20260208_z_account_summary.sql`): sum of `points_total`
over the user's `verified` submissions. -/
def bb_user_points_total (db : Db) (userId : String) : Int :=
  ((db.submissions.filter fun s => s.user_id = userId && s.status = "verified").map
    (fun s => s.points_total)).sum

/-- SQL `bb_user_points_locked(user_id)`
(`supabase/migrations/20260209_rewards_claims.sql`): sum of `points_claimed`
over the user's `pending`/`submitted`/`confirmed` claims. -/
def bb_user_points_locked (db : Db) (userId : String) : Int :=
  ((db.claims.filter fun c => c.user_id = userId && isLockedStatus c.status).map
    (fun c => c.points_claimed)).sum

/-- Modelled from the spec: the repository accessor
`getActiveRewardConversionRate` is declared in `rewards-service.ts` but its
store binding is not part of the sources; per the spec it fetches "the single
active conversion rate" (at most one row has `active = true`, enforced by the
`reward_conversion_rates_one_active` unique index of the migration). -/
def getActiveRewardConversionRate (db : Db) : Option DbRewardConversionRate :=
  db.rates.find? (fun r => r.active)

/-- Modelled from the spec: repository accessor `getRewardClaimByClientId`
(lookup by the `(user_id, client_claim_id)` idempotency key, unique by the
`reward_claims_user_client_claim_id_key` index). -/
def getRewardClaimByClientId (db : Db) (userId clientClaimId : String) :
    Option DbRewardClaim :=
  db.claims.find? (fun c => c.user_id = userId && c.client_claim_id = clientClaimId)

/-- Modelled from the spec: repository accessor `getInflightRewardClaim`
(the user's claim in status `pending` or `submitted`; at most one exists by
the `reward_claims_one_inflight_per_user` partial unique index). -/
def getInflightRewardClaim (db : Db) (userId : String) : Option DbRewardClaim :=
  db.claims.find? (fun c => c.user_id = userId && isInflightStatus c.status)

/-! ## Reward Quote (`apps/api/src/rewards-service.ts`, `getRewardsQuote`) -/

structure RewardsQuote where
  points_total : Int
  points_locked : Int
  points_available : Int
  points_per_b3tr : Int
  conversion_rate_id : String
  b3tr_amount_wei : Int
deriving DecidableEq

/-- `getRewardsQuote` from `rewards-service.ts`. The human-readable
`b3tr_amount` display string is omitted (a formatting of `b3tr_amount_wei`
that no claim mentions). -/
def getRewardsQuote (db : Db) (userId : String) : Except String RewardsQuote :=
  let pointsTotal := bb_user_points_total db userId
  let pointsLocked := bb_user_points_locked db userId
  match getActiveRewardConversionRate db with
  | none => .error "rewards_unconfigured"
  | some rate =>
      let pointsAvailable := max 0 (pointsTotal - pointsLocked)
      match computeClaimableB3trWei pointsAvailable rate.points_per_b3tr with
      | .error e => .error e
      | .ok b3trWei =>
          .ok { points_total := pointsTotal, points_locked := pointsLocked,
                points_available := pointsAvailable,
                points_per_b3tr := rate.points_per_b3tr,
                conversion_rate_id := rate.id, b3tr_amount_wei := b3trWei }

/-- `points_locked` exactly as the claim words it: the sum of `points_claimed`
over that user's claims in status `pending`, `submitted`, or `confirmed`. -/
def claimPointsLocked (db : Db) (userId : String) : Int :=
  ((db.claims.filter fun c =>
      c.user_id = userId ∧
        (c.status = "pending" ∨ c.status = "submitted" ∨ c.status = "confirmed")).map
    (fun c => c.points_claimed)).sum

theorem claimPointsLocked_eq (db : Db) (userId : String) :
    claimPointsLocked db userId = bb_user_points_locked db userId := by
  unfold claimPointsLocked bb_user_points_locked
  apply congrArg List.sum
  apply congrArg (List.map _)
  apply List.filter_congr
  intro c _
  unfold isLockedStatus
  by_cases h1 : c.user_id = userId <;>
    by_cases h2 : c.status = "pending" <;>
      by_cases h3 : c.status = "submitted" <;>
        by_cases h4 : c.status = "confirmed" <;>
          simp [h1, h2, h3, h4]

/-- C6: `quote(user_id)` computes
`points_available = max(0, points_total − points_locked)` with
`points_locked` the sum of `points_claimed` over the user's
pending/submitted/confirmed claims, and derives the token amount from
`points_available` by floor conversion at the single active rate; with no
active rate it fails with `rewards_unconfigured`. -/
theorem getRewardsQuote_claim :
    (∀ (db : Db) (userId : String),
      getActiveRewardConversionRate db = none →
        getRewardsQuote db userId = .error "rewards_unconfigured")
    ∧ (∀ (db : Db) (userId : String) (rate : DbRewardConversionRate),
      getActiveRewardConversionRate db = some rate → 0 < rate.points_per_b3tr →
        getRewardsQuote db userId =
          .ok { points_total := bb_user_points_total db userId,
                points_locked := claimPointsLocked db userId,
                points_available :=
                  max 0 (bb_user_points_total db userId - claimPointsLocked db userId),
                points_per_b3tr := rate.points_per_b3tr,
                conversion_rate_id := rate.id,
                b3tr_amount_wei :=
                  (((max 0 (bb_user_points_total db userId - claimPointsLocked db userId)).toNat
                      * 10 ^ 18) / rate.points_per_b3tr.toNat : Nat) }) := by
  constructor
  · intro db userId hnone
    unfold getRewardsQuote
    rw [hnone]
  · intro db userId rate hrate hpos
    have hconv := computeClaimableB3trWei_claim.1
      (max 0 (bb_user_points_total db userId - bb_user_points_locked db userId))
      rate.points_per_b3tr (le_max_left 0 _) hpos
    unfold getRewardsQuote
    rw [claimPointsLocked_eq]
    simp only [hrate, hconv]

theorem getRewardsQuote_claim_witness :
    (getRewardsQuote { submissions := [], claims := [], rates := [] } "u" =
      .error "rewards_unconfigured")
    ∧ (getRewardsQuote
        { submissions := [], claims := [],
          rates := [{ id := "r1", points_per_b3tr := 10, active := true }] } "u" =
      .ok { points_total := bb_user_points_total
              { submissions := [], claims := [],
                rates := [{ id := "r1", points_per_b3tr := 10, active := true }] } "u",
            points_locked := claimPointsLocked
              { submissions := [], claims := [],
                rates := [{ id := "r1", points_per_b3tr := 10, active := true }] } "u",
            points_available := max 0 (0 - 0),
            points_per_b3tr := 10, conversion_rate_id := "r1",
            b3tr_amount_wei := (((max 0 ((0 : Int) - 0)).toNat * 10 ^ 18) / (10 : Int).toNat : Nat) }) :=
  ⟨getRewardsQuote_claim.1 _ "u" rfl,
   by
    have := getRewardsQuote_claim.2
      { submissions := [], claims := [],
        rates := [{ id := "r1", points_per_b3tr := 10, active := true }] } "u"
      { id := "r1", points_per_b3tr := 10, active := true } (by decide) (by decide)
    simpa [bb_user_points_total, claimPointsLocked] using this⟩

/-! ## Claim Status Reconciliation
(`apps/api/src/rewards-service.ts`, `refreshRewardClaimStatus`) -/

/-- A chain transaction receipt as consumed by the reconciliation code. -/
structure ChainReceipt where
  reverted : Bool
deriving DecidableEq

/-- `refreshRewardClaimStatus` from `rewards-service.ts`. The Chain
Transaction Client's `getTransactionReceipt` is abstracted as a function from
transaction hash to optional receipt; `repo.updateRewardClaim` is the row
patch the source sends. The JS guard `!claim.tx_hash` is also true for the
empty string, which is modelled explicitly. -/
def refreshRewardClaimStatus (getReceipt : String → Option ChainReceipt)
    (claim : DbRewardClaim) : DbRewardClaim :=
  if claim.status ≠ "submitted" then claim
  else
    match claim.tx_hash with
    | none => claim
    | some txHash =>
        if txHash = "" then claim
        else
          match getReceipt txHash with
          | none => claim
          | some receipt =>
              if receipt.reverted then
                { claim with status := "failed", failure_reason := some "tx_reverted" }
              else
                { claim with status := "confirmed", failure_reason := none }

/-- C8: `refresh(claim)` is a no-op unless the status is `submitted` and a
`tx_hash` is present; no receipt yet returns the claim unchanged; a reverted
receipt transitions to `failed` with reason `tx_reverted`; a successful
receipt transitions to `confirmed`. -/
theorem refreshRewardClaimStatus_claim :
    (∀ (g : String → Option ChainReceipt) (c : DbRewardClaim),
      c.status ≠ "submitted" → refreshRewardClaimStatus g c = c)
    ∧ (∀ (g : String → Option ChainReceipt) (c : DbRewardClaim),
      c.tx_hash = none → refreshRewardClaimStatus g c = c)
    ∧ (∀ (g : String → Option ChainReceipt) (c : DbRewardClaim) (txHash : String),
      c.status = "submitted" → c.tx_hash = some txHash → txHash ≠ "" → g txHash = none →
        refreshRewardClaimStatus g c = c)
    ∧ (∀ (g : String → Option ChainReceipt) (c : DbRewardClaim) (txHash : String),
      c.status = "submitted" → c.tx_hash = some txHash → txHash ≠ "" →
      g txHash = some { reverted := true } →
        refreshRewardClaimStatus g c =
          { c with status := "failed", failure_reason := some "tx_reverted" })
    ∧ (∀ (g : String → Option ChainReceipt) (c : DbRewardClaim) (txHash : String),
      c.status = "submitted" → c.tx_hash = some txHash → txHash ≠ "" →
      g txHash = some { reverted := false } →
        refreshRewardClaimStatus g c =
          { c with status := "confirmed", failure_reason := none }) := by
  refine ⟨?_, ?_, ?_, ?_, ?_⟩
  · intro g c h
    unfold refreshRewardClaimStatus
    simp [h]
  · intro g c h
    unfold refreshRewardClaimStatus
    rw [h]
    split <;> rfl
  · intro g c txHash hs ht hne hg
    unfold refreshRewardClaimStatus
    simp [hs, ht, hne, hg]
  · intro g c txHash hs ht hne hg
    unfold refreshRewardClaimStatus
    simp [hs, ht, hne, hg]
  · intro g c txHash hs ht hne hg
    unfold refreshRewardClaimStatus
    simp [hs, ht, hne, hg]

theorem refreshRewardClaimStatus_claim_witness :
    (refreshRewardClaimStatus (fun _ => none)
        { id := "c1", user_id := "u", wallet_address := "0xa", client_claim_id := "k",
          conversion_rate_id := "r1", points_per_b3tr_snapshot := 10, points_claimed := 5,
          b3tr_amount_wei := 500000000000000000, status := "pending", tx_hash := none,
          raw_tx := none, failure_reason := none, created_at := 0 } =
      { id := "c1", user_id := "u", wallet_address := "0xa", client_claim_id := "k",
        conversion_rate_id := "r1", points_per_b3tr_snapshot := 10, points_claimed := 5,
        b3tr_amount_wei := 500000000000000000, status := "pending", tx_hash := none,
        raw_tx := none, failure_reason := none, created_at := 0 })
    ∧ (refreshRewardClaimStatus (fun _ => some { reverted := true })
        { id := "c1", user_id := "u", wallet_address := "0xa", client_claim_id := "k",
          conversion_rate_id := "r1", points_per_b3tr_snapshot := 10, points_claimed := 5,
          b3tr_amount_wei := 500000000000000000, status := "submitted",
          tx_hash := some "0xh", raw_tx := some "raw", failure_reason := none,
          created_at := 0 } =
      { id := "c1", user_id := "u", wallet_address := "0xa", client_claim_id := "k",
        conversion_rate_id := "r1", points_per_b3tr_snapshot := 10, points_claimed := 5,
        b3tr_amount_wei := 500000000000000000, status := "failed",
        tx_hash := some "0xh", raw_tx := some "raw",
        failure_reason := some "tx_reverted", created_at := 0 })
    ∧ (refreshRewardClaimStatus (fun _ => some { reverted := false })
        { id := "c1", user_id := "u", wallet_address := "0xa", client_claim_id := "k",
          conversion_rate_id := "r1", points_per_b3tr_snapshot := 10, points_claimed := 5,
          b3tr_amount_wei := 500000000000000000, status := "submitted",
          tx_hash := some "0xh", raw_tx := some "raw", failure_reason := none,
          created_at := 0 } =
      { id := "c1", user_id := "u", wallet_address := "0xa", client_claim_id := "k",
        conversion_rate_id := "r1", points_per_b3tr_snapshot := 10, points_claimed := 5,
        b3tr_amount_wei := 500000000000000000, status := "confirmed",
        tx_hash := some "0xh", raw_tx := some "raw", failure_reason := none,
        created_at := 0 }) :=
  ⟨refreshRewardClaimStatus_claim.1 _ _ (by decide),
   refreshRewardClaimStatus_claim.2.2.2.1 _ _ "0xh" rfl rfl (by decide) rfl,
   refreshRewardClaimStatus_claim.2.2.2.2 _ _ "0xh" rfl rfl (by decide) rfl⟩

/-! ## Claim Orchestrator
(`apps/api/src/rewards-service.ts`, `createOrGetRewardClaimAndSubmit`) -/

/-- Observable effects of one orchestrator run against the store and the
chain that matter for ordering: persisting the signed transaction (the
`status = submitted` update carrying `tx_hash`/`raw_tx`) and attempting a
broadcast of a raw transaction. -/
inductive ClaimEvent where
  | persistSubmitted (txHash rawTx : String)
  | broadcast (rawTx : String)
deriving DecidableEq

/-- `true` iff every broadcast in the trace is of a raw transaction that an
earlier `persistSubmitted` event already persisted. -/
def persistBeforeBroadcastAux : List String → List ClaimEvent → Bool
  | _, [] => true
  | seen, ClaimEvent.persistSubmitted _ raw :: rest =>
      persistBeforeBroadcastAux (raw :: seen) rest
  | seen, ClaimEvent.broadcast raw :: rest =>
      seen.contains raw && persistBeforeBroadcastAux seen rest

def persistBeforeBroadcast (t : List ClaimEvent) : Bool :=
  persistBeforeBroadcastAux [] t

/-- Outcome model of the Chain Transaction Client for one orchestrator run:
the result of `signRewardDistributionTx` (a transaction hash and the signed
raw payload, or a failure) and whether `broadcastRawTransaction` would
succeed. -/
structure RewardsChain where
  signResult : Except String (String × String)
  broadcastOk : Bool

/-- The `pending` row the orchestrator asks `createRewardClaim` to insert. -/
def pendingClaimRow (quote : RewardsQuote)
    (userId walletAddressLower clientClaimId newId : String) (now : Nat) :
    DbRewardClaim :=
  { id := newId, user_id := userId, wallet_address := walletAddressLower,
    client_claim_id := clientClaimId, conversion_rate_id := quote.conversion_rate_id,
    points_per_b3tr_snapshot := quote.points_per_b3tr,
    points_claimed := quote.points_available,
    b3tr_amount_wei := quote.b3tr_amount_wei, status := "pending",
    tx_hash := none, raw_tx := none, failure_reason := none, created_at := now }

/-- `repo.createRewardClaim`: an insert into `reward_claims`. It fails with a
uniqueness violation exactly when the row conflicts with the
`reward_claims_user_client_claim_id_key` or the
`reward_claims_one_inflight_per_user` unique index of the migration. -/
def insertRewardClaim (db : Db) (row : DbRewardClaim) : Except String Db :=
  if db.claims.any (fun c => c.user_id = row.user_id &&
      c.client_claim_id = row.client_claim_id) then
    .error "unique_violation"
  else if isInflightStatus row.status &&
      db.claims.any (fun c => c.user_id = row.user_id && isInflightStatus c.status) then
    .error "unique_violation"
  else .ok { db with claims := db.claims ++ [row] }

/-- `repo.updateRewardClaim`: patch the row with the given id and return the
patched row (the store's `update … select … single`). -/
def updateRewardClaimRow (db : Db) (id : String)
    (patch : DbRewardClaim → DbRewardClaim) : Db × Option DbRewardClaim :=
  ({ db with claims := db.claims.map fun c => if c.id = id then patch c else c },
   (db.claims.find? (fun c => c.id = id)).map patch)

/-- The patch `createOrGetRewardClaimAndSubmit` sends to transition a claim
to `submitted` (persisting the signed transaction before broadcasting). -/
def submittedPatch (txHash rawTx : String) (c : DbRewardClaim) : DbRewardClaim :=
  { c with
    status := "submitted"
    tx_hash := some txHash
    raw_tx := some rawTx
    failure_reason := none }

/-- The patch marking a claim `failed` with a recorded reason. -/
def failedPatch (reason : String) (c : DbRewardClaim) : DbRewardClaim :=
  { c with status := "failed", failure_reason := some reason }

/-- Result of one orchestrator run: the value returned (or error thrown), the
resulting store state, and the trace of persist/broadcast events. -/
structure OrchestratorRun where
  result : Except String DbRewardClaim
  db : Db
  trace : List ClaimEvent

/-- `createOrGetRewardClaimAndSubmit` from `rewards-service.ts`.

`db0` is the store state seen by the initial reads and the quote; `db1` the
state seen by the insert and the post-violation re-reads — a concurrent
request may commit rows in between, which is exactly the race the source
handles via `isUniqueViolation`. A sequential run is the special case
`db0 = db1`. `persistOk` models whether the `status = submitted` update
succeeds (an infrastructure failure there is caught, the claim is marked
`failed` and the error rethrown); the empty `catch` around
`broadcastRawTransaction` means the run's outcome never depends on
`chain.broadcastOk`. -/
def createOrGetRewardClaimAndSubmit (db0 db1 : Db) (chain : RewardsChain)
    (persistOk : Bool) (userId walletAddressLower clientClaimId newId : String)
    (now : Nat) : OrchestratorRun :=
  match getRewardClaimByClientId db0 userId clientClaimId with
  | some existing => { result := .ok existing, db := db0, trace := [] }
  | none =>
    match getInflightRewardClaim db0 userId with
    | some inflight => { result := .ok inflight, db := db0, trace := [] }
    | none =>
      match getRewardsQuote db0 userId with
      | .error e => { result := .error e, db := db0, trace := [] }
      | .ok quote =>
        if quote.points_available ≤ 0 then
          { result := .error "no_claimable_points", db := db0, trace := [] }
        else if quote.b3tr_amount_wei ≤ 0 then
          { result := .error "no_claimable_amount", db := db0, trace := [] }
        else
          let row := pendingClaimRow quote userId walletAddressLower clientClaimId newId now
          match insertRewardClaim db1 row with
          | .error _ =>
              match getRewardClaimByClientId db1 userId clientClaimId with
              | some byClientId => { result := .ok byClientId, db := db1, trace := [] }
              | none =>
                  match getInflightRewardClaim db1 userId with
                  | some byInflight =>
                      { result := .ok byInflight, db := db1, trace := [] }
                  | none => { result := .error "unique_violation", db := db1, trace := [] }
          | .ok db2 =>
              match chain.signResult with
              | .error e =>
                  let db3 := (updateRewardClaimRow db2 row.id (failedPatch e)).1
                  { result := .error e, db := db3, trace := [] }
              | .ok (txHash, rawTx) =>
                  if persistOk then
                    let upd := updateRewardClaimRow db2 row.id (submittedPatch txHash rawTx)
                    match upd.2 with
                    | some submitted =>
                        { result := .ok submitted, db := upd.1,
                          trace := [.persistSubmitted txHash rawTx, .broadcast rawTx] }
                    | none =>
                        { result := .error "claim_row_missing", db := upd.1, trace := [] }
                  else
                    let db3 :=
                      (updateRewardClaimRow db2 row.id (failedPatch "persist_failed")).1
                    { result := .error "persist_failed", db := db3, trace := [] }

theorem insertRewardClaim_error_of_byClientId {db : Db} (row : DbRewardClaim)
    {c : DbRewardClaim}
    (h : getRewardClaimByClientId db row.user_id row.client_claim_id = some c) :
    insertRewardClaim db row = .error "unique_violation" := by
  unfold getRewardClaimByClientId at h
  have hmem := List.mem_of_find?_eq_some h
  have hp := List.find?_some h
  have hany : (db.claims.any fun x => x.user_id = row.user_id &&
      x.client_claim_id = row.client_claim_id) = true :=
    List.any_eq_true.mpr ⟨c, hmem, hp⟩
  unfold insertRewardClaim
  simp [hany]

theorem insertRewardClaim_error_of_inflight {db : Db} (row : DbRewardClaim)
    {c : DbRewardClaim}
    (hrow : isInflightStatus row.status = true)
    (h : getInflightRewardClaim db row.user_id = some c) :
    insertRewardClaim db row = .error "unique_violation" := by
  unfold getInflightRewardClaim at h
  have hmem := List.mem_of_find?_eq_some h
  have hp := List.find?_some h
  have hany : (db.claims.any fun x => x.user_id = row.user_id &&
      isInflightStatus x.status) = true :=
    List.any_eq_true.mpr ⟨c, hmem, hp⟩
  unfold insertRewardClaim
  by_cases hfirst : (db.claims.any fun x => x.user_id = row.user_id &&
      x.client_claim_id = row.client_claim_id) = true
  · simp [hfirst]
  · simp [hfirst, hrow, hany]

/-- C2: the claim orchestrator is idempotent on the client claim id. If a
claim already exists for `(user_id, client_claim_id)` at the initial read it
is returned and the store is untouched; if the insert races and hits a
uniqueness violation, the orchestrator re-reads by client id and then by
in-flight status and returns the claim that now exists — so two calls with
the same `client_claim_id` return the same claim whichever write wins. -/
theorem createOrGetRewardClaimAndSubmit_claim :
    (∀ (db0 db1 : Db) (chain : RewardsChain) (persistOk : Bool)
        (userId wallet ccid newId : String) (now : Nat) (c : DbRewardClaim),
      getRewardClaimByClientId db0 userId ccid = some c →
        (createOrGetRewardClaimAndSubmit db0 db1 chain persistOk
            userId wallet ccid newId now).result = .ok c ∧
        (createOrGetRewardClaimAndSubmit db0 db1 chain persistOk
            userId wallet ccid newId now).db = db0)
    ∧ (∀ (db0 db1 : Db) (chain : RewardsChain) (persistOk : Bool)
        (userId wallet ccid newId : String) (now : Nat)
        (q : RewardsQuote) (c : DbRewardClaim),
      getRewardClaimByClientId db0 userId ccid = none →
      getInflightRewardClaim db0 userId = none →
      getRewardsQuote db0 userId = .ok q →
      0 < q.points_available → 0 < q.b3tr_amount_wei →
      getRewardClaimByClientId db1 userId ccid = some c →
        (createOrGetRewardClaimAndSubmit db0 db1 chain persistOk
            userId wallet ccid newId now).result = .ok c ∧
        (createOrGetRewardClaimAndSubmit db0 db1 chain persistOk
            userId wallet ccid newId now).db = db1)
    ∧ (∀ (db0 db1 : Db) (chain : RewardsChain) (persistOk : Bool)
        (userId wallet ccid newId : String) (now : Nat)
        (q : RewardsQuote) (c : DbRewardClaim),
      getRewardClaimByClientId db0 userId ccid = none →
      getInflightRewardClaim db0 userId = none →
      getRewardsQuote db0 userId = .ok q →
      0 < q.points_available → 0 < q.b3tr_amount_wei →
      getRewardClaimByClientId db1 userId ccid = none →
      getInflightRewardClaim db1 userId = some c →
        (createOrGetRewardClaimAndSubmit db0 db1 chain persistOk
            userId wallet ccid newId now).result = .ok c ∧
        (createOrGetRewardClaimAndSubmit db0 db1 chain persistOk
            userId wallet ccid newId now).db = db1) := by
  refine ⟨?_, ?_, ?_⟩
  · intro db0 db1 chain persistOk userId wallet ccid newId now c h
    unfold createOrGetRewardClaimAndSubmit
    rw [h]
    exact ⟨rfl, rfl⟩
  · intro db0 db1 chain persistOk userId wallet ccid newId now q c h1 h2 h3 h4 h5 h6
    have hins : insertRewardClaim db1
        (pendingClaimRow q userId wallet ccid newId now) = .error "unique_violation" :=
      insertRewardClaim_error_of_byClientId (pendingClaimRow q userId wallet ccid newId now) h6
    have hnp : ¬ (q.points_available ≤ 0) := not_le.mpr h4
    have hnw : ¬ (q.b3tr_amount_wei ≤ 0) := not_le.mpr h5
    unfold createOrGetRewardClaimAndSubmit
    rw [h1, h2, h3]
    dsimp only
    rw [if_neg hnp, if_neg hnw, hins, h6]
    exact ⟨rfl, rfl⟩
  · intro db0 db1 chain persistOk userId wallet ccid newId now q c h1 h2 h3 h4 h5 h6 h7
    have hins : insertRewardClaim db1
        (pendingClaimRow q userId wallet ccid newId now) = .error "unique_violation" :=
      insertRewardClaim_error_of_inflight
        (pendingClaimRow q userId wallet ccid newId now) rfl h7
    have hnp : ¬ (q.points_available ≤ 0) := not_le.mpr h4
    have hnw : ¬ (q.b3tr_amount_wei ≤ 0) := not_le.mpr h5
    unfold createOrGetRewardClaimAndSubmit
    rw [h1, h2, h3]
    dsimp only
    rw [if_neg hnp, if_neg hnw, hins, h6, h7]
    exact ⟨rfl, rfl⟩

/-- Sample verified submission worth 15 points (for concrete witnesses). -/
def sampleVerifiedSub : DbReceiptSubmission :=
  { id := "s1", user_id := "u", client_submission_id := "cs1", status := "verified",
    image_bucket := "b", image_key := "k1", image_content_type := some "image/png",
    dify_drink_list := none, receipt_time_raw := none, retinfo_is_availd := some "true",
    time_threshold := some "false", points_total := 15, receipt_fingerprint := some "fp",
    rejection_code := none, duplicate_of := none, created_at := 0 }

def sampleRate : DbRewardConversionRate :=
  { id := "r1", points_per_b3tr := 10, active := true }

/-- Sample claim for `(user u, client claim id k)`. -/
def sampleClaimK : DbRewardClaim :=
  { id := "c1", user_id := "u", wallet_address := "0xa", client_claim_id := "k",
    conversion_rate_id := "r1", points_per_b3tr_snapshot := 10, points_claimed := 15,
    b3tr_amount_wei := 1500000000000000000, status := "pending", tx_hash := none,
    raw_tx := none, failure_reason := none, created_at := 0 }

/-- Sample in-flight claim of the same user under a different client id. -/
def sampleClaimOther : DbRewardClaim :=
  { id := "c2", user_id := "u", wallet_address := "0xa", client_claim_id := "k2",
    conversion_rate_id := "r1", points_per_b3tr_snapshot := 10, points_claimed := 15,
    b3tr_amount_wei := 1500000000000000000, status := "pending", tx_hash := none,
    raw_tx := none, failure_reason := none, created_at := 0 }

def sampleDbPoints : Db :=
  { submissions := [sampleVerifiedSub], claims := [], rates := [sampleRate] }

def sampleDbWithClaim : Db :=
  { submissions := [sampleVerifiedSub], claims := [sampleClaimK], rates := [sampleRate] }

def sampleDbWithOther : Db :=
  { submissions := [sampleVerifiedSub], claims := [sampleClaimOther], rates := [sampleRate] }

def sampleQuote : RewardsQuote :=
  { points_total := 15, points_locked := 0, points_available := 15,
    points_per_b3tr := 10, conversion_rate_id := "r1",
    b3tr_amount_wei := 1500000000000000000 }

theorem createOrGetRewardClaimAndSubmit_claim_witness :
    ((createOrGetRewardClaimAndSubmit sampleDbWithClaim sampleDbWithClaim
        ⟨.ok ("0xh", "raw"), true⟩ true "u" "0xa" "k" "new" 1).result = .ok sampleClaimK ∧
      (createOrGetRewardClaimAndSubmit sampleDbWithClaim sampleDbWithClaim
        ⟨.ok ("0xh", "raw"), true⟩ true "u" "0xa" "k" "new" 1).db = sampleDbWithClaim)
    ∧ ((createOrGetRewardClaimAndSubmit sampleDbPoints sampleDbWithClaim
        ⟨.ok ("0xh", "raw"), true⟩ true "u" "0xa" "k" "new" 1).result = .ok sampleClaimK ∧
      (createOrGetRewardClaimAndSubmit sampleDbPoints sampleDbWithClaim
        ⟨.ok ("0xh", "raw"), true⟩ true "u" "0xa" "k" "new" 1).db = sampleDbWithClaim)
    ∧ ((createOrGetRewardClaimAndSubmit sampleDbPoints sampleDbWithOther
        ⟨.ok ("0xh", "raw"), true⟩ true "u" "0xa" "k" "new" 1).result = .ok sampleClaimOther ∧
      (createOrGetRewardClaimAndSubmit sampleDbPoints sampleDbWithOther
        ⟨.ok ("0xh", "raw"), true⟩ true "u" "0xa" "k" "new" 1).db = sampleDbWithOther) :=
  ⟨createOrGetRewardClaimAndSubmit_claim.1 sampleDbWithClaim sampleDbWithClaim
      ⟨.ok ("0xh", "raw"), true⟩ true "u" "0xa" "k" "new" 1 sampleClaimK (by decide),
   createOrGetRewardClaimAndSubmit_claim.2.1 sampleDbPoints sampleDbWithClaim
      ⟨.ok ("0xh", "raw"), true⟩ true "u" "0xa" "k" "new" 1 sampleQuote sampleClaimK
      (by decide) (by decide) rfl (by decide) (by decide) (by decide),
   createOrGetRewardClaimAndSubmit_claim.2.2 sampleDbPoints sampleDbWithOther
      ⟨.ok ("0xh", "raw"), true⟩ true "u" "0xa" "k" "new" 1 sampleQuote sampleClaimOther
      (by decide) (by decide) rfl (by decide) (by decide) (by decide) (by decide)⟩

theorem find?_append_singleton {α : Type} (p : α → Bool) (l : List α) (x : α)
    (h : ∀ c ∈ l, p c = false) (hx : p x = true) :
    (l ++ [x]).find? p = some x := by
  induction l with
  | nil => simp [List.find?, hx]
  | cons a as ih =>
      have ha := h a (List.mem_cons_self a as)
      rw [List.cons_append, List.find?_cons_of_neg _ (by simp [ha])]
      exact ih (fun c hc => h c (List.mem_cons_of_mem a hc))

theorem insertRewardClaim_ok_claims {db db' : Db} {row : DbRewardClaim}
    (h : insertRewardClaim db row = .ok db') :
    db' = { db with claims := db.claims ++ [row] } := by
  unfold insertRewardClaim at h
  split at h
  · exact absurd h (by simp)
  · split at h
    · exact absurd h (by simp)
    · injection h with h2
      exact h2.symm

/-- C3: the signed transaction is persisted (the claim transitions to
`submitted` with `tx_hash`/`raw_tx`) strictly before any broadcast attempt —
in every run's event trace each broadcast of a raw transaction is preceded by
a `persistSubmitted` of the same raw transaction — and a broadcast failure is
swallowed: with signing and persistence successful the run returns the
`submitted` claim with `tx_hash` and `raw_tx` set regardless of whether the
broadcast would succeed, raising no error. -/
theorem claimSubmit_persistBeforeBroadcast_claim :
    (∀ (db0 db1 : Db) (chain : RewardsChain) (persistOk : Bool)
        (userId wallet ccid newId : String) (now : Nat),
      persistBeforeBroadcast (createOrGetRewardClaimAndSubmit db0 db1 chain persistOk
          userId wallet ccid newId now).trace = true)
    ∧ (∀ (db0 db1 db2 : Db) (broadcastOk : Bool)
        (userId wallet ccid newId txHash rawTx : String) (now : Nat) (q : RewardsQuote),
      getRewardClaimByClientId db0 userId ccid = none →
      getInflightRewardClaim db0 userId = none →
      getRewardsQuote db0 userId = .ok q →
      0 < q.points_available → 0 < q.b3tr_amount_wei →
      insertRewardClaim db1 (pendingClaimRow q userId wallet ccid newId now) = .ok db2 →
      (∀ x ∈ db1.claims, x.id ≠ newId) →
        (createOrGetRewardClaimAndSubmit db0 db1 ⟨.ok (txHash, rawTx), broadcastOk⟩ true
            userId wallet ccid newId now).result =
          .ok (submittedPatch txHash rawTx
            (pendingClaimRow q userId wallet ccid newId now))) := by
  constructor
  · intro db0 db1 chain persistOk userId wallet ccid newId now
    unfold createOrGetRewardClaimAndSubmit
    dsimp only
    repeat' split
    all_goals simp [persistBeforeBroadcast, persistBeforeBroadcastAux, List.contains_cons]
  · intro db0 db1 db2 broadcastOk userId wallet ccid newId txHash rawTx now q
      h1 h2 h3 h4 h5 h6 h7
    have hnp : ¬ (q.points_available ≤ 0) := not_le.mpr h4
    have hnw : ¬ (q.b3tr_amount_wei ≤ 0) := not_le.mpr h5
    have hdb2 := insertRewardClaim_ok_claims h6
    have hfind : db2.claims.find?
        (fun c => c.id = (pendingClaimRow q userId wallet ccid newId now).id) =
        some (pendingClaimRow q userId wallet ccid newId now) := by
      rw [hdb2]
      dsimp only
      apply find?_append_singleton
      · intro x hx
        simp [pendingClaimRow, h7 x hx]
      · simp
    unfold createOrGetRewardClaimAndSubmit
    rw [h1, h2, h3]
    dsimp only
    rw [if_neg hnp, if_neg hnw, h6]
    dsimp only [updateRewardClaimRow]
    rw [hfind]
    rfl

theorem claimSubmit_persistBeforeBroadcast_claim_witness :
    persistBeforeBroadcast (createOrGetRewardClaimAndSubmit sampleDbPoints sampleDbPoints
        ⟨.ok ("0xh", "raw"), false⟩ true "u" "0xa" "k" "new" 1).trace = true
    ∧ (createOrGetRewardClaimAndSubmit sampleDbPoints sampleDbPoints
        ⟨.ok ("0xh", "raw"), false⟩ true "u" "0xa" "k" "new" 1).result =
      .ok (submittedPatch "0xh" "raw" (pendingClaimRow sampleQuote "u" "0xa" "k" "new" 1)) :=
  ⟨claimSubmit_persistBeforeBroadcast_claim.1 sampleDbPoints sampleDbPoints
      ⟨.ok ("0xh", "raw"), false⟩ true "u" "0xa" "k" "new" 1,
   claimSubmit_persistBeforeBroadcast_claim.2 sampleDbPoints sampleDbPoints
      { sampleDbPoints with claims := [pendingClaimRow sampleQuote "u" "0xa" "k" "new" 1] }
      false "u" "0xa" "k" "new" "0xh" "raw" 1 sampleQuote
      (by decide) (by decide) rfl (by decide) (by decide) rfl (by simp [sampleDbPoints])⟩

/-! ## Submission verify operation
(`apps/api/src/index.ts`, `POST /submissions/:id/verify`) -/

/-- `normalizeBoolString` from `index.ts` (`input.trim().toLowerCase()`). -/
def normalizeBoolString (input : String) : String :=
  strLower (jsTrim input)

/-- The parsed extraction payload (`extractDifyReceiptPayload` result) as the
verify handler consumes it. Non-string scalars are modelled by the string the
handler's `String(x ?? '')` coercion produces; an absent field is `none`. -/
structure DifyPayload where
  drinkList : Option (List DifyDrinkItem)
  retinfoIsAvaild : Option String
  timeThreshold : Option String
  retinfoReceiptTime : Option String

/-- `repo.computeReceiptFingerprint`: calls the SQL function and returns the
trimmed digest, or `null` for a SQL `NULL` / blank result. -/
def computeReceiptFingerprintRepo (h : String → String) (t : Option String)
    (l : Option (List DifyDrinkItem)) : Option String :=
  match bbReceiptFingerprint h t l with
  | none => none
  | some s => if jsTrim s = "" then none else some (jsTrim s)

/-- Environment of one verify run: the object-storage probe result, whether
the extraction call throws, its parsed payload when it returns, and the
SHA-256 abstraction used by the store's fingerprint function. -/
structure VerifyEnv where
  objectPresent : Bool
  difyThrows : Bool
  payload : Option DifyPayload
  hash : String → String

inductive VerifyOutcome where
  | ok (sub : DbReceiptSubmission)
  | notFound
  | uploadIncomplete
  | internalError

/-- `repo.updateSubmissionStatusIfCurrent`: the conditional update
`set status = to where id = … and status = from` (`id` is the primary key),
returning the updated row or `none` when the condition did not match. -/
def updateSubmissionStatusIfCurrent (db : Db) (id fromSt toSt : String) :
    Db × Option DbReceiptSubmission :=
  match db.submissions.find? (fun s => s.id = id) with
  | none => (db, none)
  | some s =>
      if s.status = fromSt then
        ({ db with submissions := db.submissions.map fun x =>
            if x.id = id && x.status = fromSt then { x with status := toSt } else x },
          some { s with status := toSt })
      else (db, none)

/-- The partial unique index
`receipt_submissions_verified_receipt_fingerprint_key`: at most one `verified`
row per non-null fingerprint, globally. -/
def violatesVerifiedFpIndex (db : Db) (id : String) (s' : DbReceiptSubmission) : Bool :=
  s'.status = "verified" && s'.receipt_fingerprint.isSome &&
    db.submissions.any (fun o => o.id ≠ id && o.status = "verified" &&
      o.receipt_fingerprint = s'.receipt_fingerprint)

/-- `repo.updateSubmission`: patch the row with the given id; surfaces the
partial unique index on verified fingerprints as a uniqueness violation. -/
def updateSubmission (db : Db) (id : String)
    (patch : DbReceiptSubmission → DbReceiptSubmission) :
    Except String (Db × DbReceiptSubmission) :=
  match db.submissions.find? (fun s => s.id = id) with
  | none => .error "not_found"
  | some s =>
      let s' := patch s
      if violatesVerifiedFpIndex db id s' then .error "unique_violation"
      else
        .ok ({ db with submissions := db.submissions.map fun x =>
            if x.id = id then patch x else x }, s')

/-- `repo.getVerifiedSubmissionByFingerprint`: the `verified` submission with
this fingerprint, ordered by `created_at` ascending, limit 1 (the oldest). -/
def minByCreatedAt : List DbReceiptSubmission → Option DbReceiptSubmission
  | [] => none
  | s :: rest =>
      match minByCreatedAt rest with
      | none => some s
      | some m => if s.created_at ≤ m.created_at then some s else some m

def getVerifiedSubmissionByFingerprint (db : Db) (fp : String) :
    Option DbReceiptSubmission :=
  minByCreatedAt (db.submissions.filter fun s =>
    s.receipt_fingerprint = some fp && s.status = "verified")

/-- The finalize-as-rejected update both the unparseable-payload branch and
the handler's outer `catch` perform (`status = rejected`, `points_total = 0`;
the raw-payload and timestamp parts of the patch are not modelled). -/
def rejectCatchAll (db : Db) (subId : String) : VerifyOutcome × Db :=
  match updateSubmission db subId
      (fun s => { s with status := "rejected", points_total := 0 }) with
  | .ok (db2, u) => (.ok u, db2)
  | .error _ => (.internalError, db)

/-- The final patch the verify handler writes once the payload is parsed. -/
def finalPatch (payload : DifyPayload) (finalStatus : String) (okFlag : Bool)
    (totalPoints : Int) (retinfoIsAvaild timeThreshold : String)
    (receiptFingerprint : Option String) (s : DbReceiptSubmission) :
    DbReceiptSubmission :=
  { s with
    status := finalStatus
    dify_drink_list := payload.drinkList
    receipt_time_raw := payload.retinfoReceiptTime
    retinfo_is_availd := some retinfoIsAvaild
    time_threshold := some timeThreshold
    points_total := if okFlag then totalPoints else 0
    receipt_fingerprint := if finalStatus = "verified" then receiptFingerprint else none
    rejection_code := none
    duplicate_of := none }

/-- The duplicate-receipt re-finalization patch written after a uniqueness
violation on the verified-fingerprint index. -/
def duplicatePatch (payload : DifyPayload) (retinfoIsAvaild timeThreshold : String)
    (receiptFingerprint : Option String) (winner : Option DbReceiptSubmission)
    (s : DbReceiptSubmission) : DbReceiptSubmission :=
  { s with
    status := "rejected"
    dify_drink_list := payload.drinkList
    receipt_time_raw := payload.retinfoReceiptTime
    retinfo_is_availd := some retinfoIsAvaild
    time_threshold := some timeThreshold
    points_total := 0
    receipt_fingerprint := receiptFingerprint
    rejection_code := some "duplicate_receipt"
    duplicate_of := winner.map (fun w => w.id) }

/-- `normalizeBoolString(payload.retinfoIsAvaild ?? '')` of the handler. -/
def vfIsAvaild (payload : DifyPayload) : String :=
  normalizeBoolString (payload.retinfoIsAvaild.getD "")

/-- `normalizeBoolString(payload.timeThreshold ?? '')` of the handler. -/
def vfTimeThreshold (payload : DifyPayload) : String :=
  normalizeBoolString (payload.timeThreshold.getD "")

/-- The handler's acceptability flag
`ok = retinfoIsAvaild === 'true' && timeThreshold === 'false'`. -/
def vfOk (payload : DifyPayload) : Bool :=
  vfIsAvaild payload = "true" && vfTimeThreshold payload = "false"

def vfPoints (payload : DifyPayload) : Int :=
  (computeTotalPoints payload.drinkList).totalPoints

/-- `finalStatus = ok ? (points > 0 ? verified : not_claimable) : rejected`. -/
def vfFinalStatus (payload : DifyPayload) : String :=
  if vfOk payload then
    (if vfPoints payload > 0 then "verified" else "not_claimable")
  else "rejected"

/-- The fingerprint the handler computes (only for a `verified` outcome). -/
def vfFingerprint (env : VerifyEnv) (payload : DifyPayload) : Option String :=
  if vfFinalStatus payload = "verified" then
    computeReceiptFingerprintRepo env.hash payload.retinfoReceiptTime payload.drinkList
  else none

/-- The final patch, with all its arguments as the handler computes them. -/
def vfPatch (env : VerifyEnv) (payload : DifyPayload) :
    DbReceiptSubmission → DbReceiptSubmission :=
  finalPatch payload (vfFinalStatus payload) (vfOk payload) (vfPoints payload)
    (vfIsAvaild payload) (vfTimeThreshold payload) (vfFingerprint env payload)

/-- The duplicate-receipt patch, with its arguments as the handler computes
them. -/
def vfDupPatch (payload : DifyPayload) (fp : String)
    (winner : Option DbReceiptSubmission) :
    DbReceiptSubmission → DbReceiptSubmission :=
  duplicatePatch payload (vfIsAvaild payload) (vfTimeThreshold payload)
    (some fp) winner

/-- The verify handler's flow from a successfully parsed payload onwards:
normalization, acceptability, scoring, final status, fingerprint, the final
update, and the race-safe duplicate re-finalization on a uniqueness
violation. -/
def verifyFinalize (env : VerifyEnv) (db1 : Db) (subId : String)
    (payload : DifyPayload) : VerifyOutcome × Db :=
  match updateSubmission db1 subId (vfPatch env payload) with
  | .ok (db2, u) => (.ok u, db2)
  | .error e =>
      match vfFingerprint env payload with
      | some fp =>
          if vfFinalStatus payload = "verified" && e = "unique_violation" then
            match updateSubmission db1 subId
                (vfDupPatch payload fp (getVerifiedSubmissionByFingerprint db1 fp)) with
            | .ok (db2, u) => (.ok u, db2)
            | .error _ => rejectCatchAll db1 subId
          else rejectCatchAll db1 subId
      | none => rejectCatchAll db1 subId

/-- The verify operation (`POST /submissions/:id/verify`), from lookup and
idempotent terminal-status handling through claiming `uploaded → verifying`
and finalization. `env.difyThrows` routes through the handler's outer
`catch`, which finalizes as `rejected` instead of leaving the row stuck. -/
def verifySubmission (env : VerifyEnv) (db : Db) (userId subId : String) :
    VerifyOutcome × Db :=
  match db.submissions.find? (fun s => s.id = subId) with
  | none => (.notFound, db)
  | some submission =>
      if submission.user_id ≠ userId then (.notFound, db)
      else if submission.status = "verified" || submission.status = "rejected" ||
          submission.status = "not_claimable" then (.ok submission, db)
      else if submission.status = "pending_upload" then (.uploadIncomplete, db)
      else if submission.status = "verifying" then (.ok submission, db)
      else
        match updateSubmissionStatusIfCurrent db subId "uploaded" "verifying" with
        | (db0, none) =>
            match db0.submissions.find? (fun s => s.id = subId) with
            | none => (.notFound, db0)
            | some fresh =>
                if fresh.user_id ≠ userId then (.notFound, db0) else (.ok fresh, db0)
        | (db1, some _claimed) =>
            if env.objectPresent = false then
              match updateSubmission db1 subId
                  (fun s => { s with status := "pending_upload" }) with
              | .ok (db2, _) => (.uploadIncomplete, db2)
              | .error _ => (.internalError, db1)
            else if env.difyThrows then rejectCatchAll db1 subId
            else
              match env.payload with
              | none => rejectCatchAll db1 subId
              | some payload => verifyFinalize env db1 subId payload

/-- The state after the conditional `uploaded → verifying` claim. -/
def claimVerifying (db : Db) (subId : String) : Db :=
  { db with submissions := db.submissions.map fun x =>
      if x.id = subId && x.status = "uploaded" then { x with status := "verifying" } else x }

theorem updateSubmission_ok_inv {db : Db} {id : String}
    {patch : DbReceiptSubmission → DbReceiptSubmission} {db' : Db}
    {u : DbReceiptSubmission}
    (h : updateSubmission db id patch = .ok (db', u)) :
    ∃ s, db.submissions.find? (fun x => x.id = id) = some s ∧ u = patch s ∧
      db' = { db with submissions := db.submissions.map fun x =>
        if x.id = id then patch x else x } := by
  unfold updateSubmission at h
  cases hfind : db.submissions.find? (fun x => x.id = id) with
  | none =>
      rw [hfind] at h
      simp at h
  | some s =>
      rw [hfind] at h
      dsimp only at h
      by_cases hv : violatesVerifiedFpIndex db id (patch s) = true
      · rw [if_pos hv] at h
        simp at h
      · rw [if_neg hv] at h
        simp only [Except.ok.injEq, Prod.mk.injEq] at h
        exact ⟨s, rfl, h.2.symm, h.1.symm⟩

theorem updateSubmission_ok_of (db : Db) (id : String)
    (patch : DbReceiptSubmission → DbReceiptSubmission) (s : DbReceiptSubmission)
    (hfind : db.submissions.find? (fun x => x.id = id) = some s)
    (hv : violatesVerifiedFpIndex db id (patch s) = false) :
    updateSubmission db id patch =
      .ok ({ db with submissions := db.submissions.map fun x =>
        if x.id = id then patch x else x }, patch s) := by
  unfold updateSubmission
  rw [hfind]
  dsimp only
  rw [if_neg (by rw [hv]; exact Bool.false_ne_true)]

theorem updateSubmission_error_of (db : Db) (id : String)
    (patch : DbReceiptSubmission → DbReceiptSubmission) (s : DbReceiptSubmission)
    (hfind : db.submissions.find? (fun x => x.id = id) = some s)
    (hv : violatesVerifiedFpIndex db id (patch s) = true) :
    updateSubmission db id patch = .error "unique_violation" := by
  unfold updateSubmission
  rw [hfind]
  dsimp only
  rw [if_pos hv]

theorem rejectCatchAll_rejected_points {db db' : Db} {subId : String}
    {u : DbReceiptSubmission}
    (h : rejectCatchAll db subId = (.ok u, db')) :
    u.status = "rejected" ∧ u.points_total = 0 := by
  unfold rejectCatchAll at h
  cases hupd : updateSubmission db subId
      (fun s => { s with status := "rejected", points_total := 0 }) with
  | error e =>
      rw [hupd] at h
      simp at h
  | ok p =>
      obtain ⟨db2, u2⟩ := p
      rw [hupd] at h
      simp only [Prod.mk.injEq, VerifyOutcome.ok.injEq] at h
      obtain ⟨rfl, rfl⟩ := h
      obtain ⟨s, _, hu2, _⟩ := updateSubmission_ok_inv hupd
      subst hu2
      exact ⟨rfl, rfl⟩

theorem minByCreatedAt_eq_none {l : List DbReceiptSubmission}
    (h : minByCreatedAt l = none) : l = [] := by
  cases l with
  | nil => rfl
  | cons a as =>
      exfalso
      unfold minByCreatedAt at h
      cases hrest : minByCreatedAt as with
      | none => rw [hrest] at h; simp at h
      | some m =>
          rw [hrest] at h
          dsimp only at h
          split at h <;> simp_all

theorem minByCreatedAt_spec {l : List DbReceiptSubmission} {m : DbReceiptSubmission}
    (h : minByCreatedAt l = some m) :
    m ∈ l ∧ ∀ x ∈ l, m.created_at ≤ x.created_at := by
  induction l generalizing m with
  | nil => simp [minByCreatedAt] at h
  | cons s rest ih =>
      unfold minByCreatedAt at h
      cases hrest : minByCreatedAt rest with
      | none =>
          rw [hrest] at h
          dsimp only at h
          obtain rfl : s = m := by simpa using h
          have hnil : rest = [] := minByCreatedAt_eq_none hrest
          subst hnil
          exact ⟨by simp, by simp⟩
      | some mr =>
          rw [hrest] at h
          dsimp only at h
          obtain ⟨hmem, hmin⟩ := ih hrest
          by_cases hle : s.created_at ≤ mr.created_at
          · rw [if_pos hle] at h
            obtain rfl : s = m := by simpa using h
            refine ⟨by simp, ?_⟩
            intro x hx
            rcases List.mem_cons.mp hx with rfl | hx'
            · exact le_refl _
            · exact le_trans hle (hmin x hx')
          · rw [if_neg hle] at h
            obtain rfl : mr = m := by simpa using h
            refine ⟨List.mem_cons_of_mem _ hmem, ?_⟩
            intro x hx
            rcases List.mem_cons.mp hx with rfl | hx'
            · exact le_of_lt (lt_of_not_le hle)
            · exact hmin x hx'

theorem verifyFinalize_rejected_points {env : VerifyEnv} {db1 : Db} {subId : String}
    {payload : DifyPayload} {u : DbReceiptSubmission} {db' : Db}
    (h : verifyFinalize env db1 subId payload = (.ok u, db'))
    (hrej : u.status = "rejected") : u.points_total = 0 := by
  unfold verifyFinalize at h
  split at h
  · rename_i db2 u2 heq
    simp only [Prod.mk.injEq, VerifyOutcome.ok.injEq] at h
    obtain ⟨rfl, rfl⟩ := h
    obtain ⟨s, hfind, hu, hdb⟩ := updateSubmission_ok_inv heq
    subst hu
    simp only [vfPatch, finalPatch] at hrej ⊢
    by_cases hok : vfOk payload = true
    · exfalso
      unfold vfFinalStatus at hrej
      rw [if_pos hok] at hrej
      split at hrej <;> exact absurd hrej (by decide)
    · simp [hok]
  · rename_i e heq
    split at h
    · rename_i fp hfp
      split at h
      · split at h
        · rename_i db2 u2 heq2
          simp only [Prod.mk.injEq, VerifyOutcome.ok.injEq] at h
          obtain ⟨rfl, rfl⟩ := h
          obtain ⟨s, hfind, hu, hdb⟩ := updateSubmission_ok_inv heq2
          subst hu
          simp [vfDupPatch, duplicatePatch]
        · exact (rejectCatchAll_rejected_points h).2
      · exact (rejectCatchAll_rejected_points h).2
    · exact (rejectCatchAll_rejected_points h).2

/-- C10: every submission finalized as `rejected` by the verify operation has
`points_total = 0`, on every rejection path (unparseable payload,
not-acceptable flags, duplicate-receipt re-finalization, and the catch-all
unexpected-failure path). -/
theorem verify_rejected_points_claim :
    ∀ (env : VerifyEnv) (db : Db) (userId subId : String)
      (s0 u : DbReceiptSubmission) (db' : Db),
      db.submissions.find? (fun s => s.id = subId) = some s0 →
      s0.user_id = userId → s0.status = "uploaded" →
      verifySubmission env db userId subId = (.ok u, db') →
      u.status = "rejected" → u.points_total = 0 := by
  intro env db userId subId s0 u db' hfind huser hst heq hrej
  unfold verifySubmission at heq
  rw [hfind] at heq
  dsimp only at heq
  rw [if_neg (fun hne => hne huser)] at heq
  rw [if_neg (show ¬ ((s0.status = "verified" || s0.status = "rejected" ||
    s0.status = "not_claimable") = true) by rw [hst]; decide)] at heq
  rw [if_neg (show ¬ (s0.status = "pending_upload") by rw [hst]; decide)] at heq
  rw [if_neg (show ¬ (s0.status = "verifying") by rw [hst]; decide)] at heq
  have hclaim : updateSubmissionStatusIfCurrent db subId "uploaded" "verifying" =
      (claimVerifying db subId, some { s0 with status := "verifying" }) := by
    unfold updateSubmissionStatusIfCurrent claimVerifying
    rw [hfind]
    dsimp only
    rw [if_pos hst]
  rw [hclaim] at heq
  dsimp only at heq
  by_cases hobj : env.objectPresent = false
  · rw [if_pos hobj] at heq
    split at heq <;> simp at heq
  · rw [if_neg hobj] at heq
    by_cases hdify : env.difyThrows = true
    · rw [if_pos hdify] at heq
      exact (rejectCatchAll_rejected_points heq).2
    · rw [if_neg hdify] at heq
      cases hpay : env.payload with
      | none =>
          rw [hpay] at heq
          exact (rejectCatchAll_rejected_points heq).2
      | some payload =>
          rw [hpay] at heq
          exact verifyFinalize_rejected_points heq hrej

def wUploadedSub : DbReceiptSubmission :=
  { id := "s1", user_id := "u", client_submission_id := "cs1", status := "uploaded",
    image_bucket := "b", image_key := "k1", image_content_type := some "image/png",
    dify_drink_list := none, receipt_time_raw := none, retinfo_is_availd := none,
    time_threshold := none, points_total := 0, receipt_fingerprint := none,
    rejection_code := none, duplicate_of := none, created_at := 0 }

def wDbUploaded : Db := { submissions := [wUploadedSub], claims := [], rates := [] }

def wEnvUnparseable : VerifyEnv :=
  { objectPresent := true, difyThrows := false, payload := none, hash := id }

theorem verify_rejected_points_claim_witness :
    verifySubmission wEnvUnparseable wDbUploaded "u" "s1" =
      (.ok { wUploadedSub with status := "rejected", points_total := 0 },
        { submissions := [{ wUploadedSub with status := "rejected", points_total := 0 }],
          claims := [], rates := [] }) ∧
    ({ wUploadedSub with status := "rejected", points_total := 0 } :
      DbReceiptSubmission).points_total = 0 :=
  ⟨rfl,
   verify_rejected_points_claim wEnvUnparseable wDbUploaded "u" "s1" wUploadedSub
     { wUploadedSub with status := "rejected", points_total := 0 }
     { submissions := [{ wUploadedSub with status := "rejected", points_total := 0 }],
       claims := [], rates := [] }
     rfl rfl rfl rfl rfl⟩

theorem find?_map_of_id_preserved (g : DbReceiptSubmission → DbReceiptSubmission)
    (hg : ∀ x, (g x).id = x.id) (l : List DbReceiptSubmission) (subId : String) :
    (l.map g).find? (fun x => x.id = subId) =
      (l.find? (fun x => x.id = subId)).map g := by
  induction l with
  | nil => rfl
  | cons a as ih =>
      rw [List.map_cons]
      by_cases ha : a.id = subId
      · rw [List.find?_cons_of_pos _ (by simp [hg, ha]),
          List.find?_cons_of_pos _ (by simp [ha])]
        rfl
      · rw [List.find?_cons_of_neg _ (by simp [hg, ha]),
          List.find?_cons_of_neg _ (by simp [ha])]
        exact ih

/-- The store state after patching one submission row. -/
def updateRow (db : Db) (subId : String)
    (patch : DbReceiptSubmission → DbReceiptSubmission) : Db :=
  { db with submissions := db.submissions.map fun x =>
      if x.id = subId then patch x else x }

theorem getVerifiedSubmissionByFingerprint_oldest (db : Db) (f : String)
    (w : DbReceiptSubmission)
    (h : getVerifiedSubmissionByFingerprint db f = some w) :
    w ∈ db.submissions ∧ w.status = "verified" ∧ w.receipt_fingerprint = some f ∧
      ∀ x ∈ db.submissions, x.status = "verified" → x.receipt_fingerprint = some f →
        w.created_at ≤ x.created_at := by
  unfold getVerifiedSubmissionByFingerprint at h
  obtain ⟨hmem, hmin⟩ := minByCreatedAt_spec h
  rw [List.mem_filter] at hmem
  obtain ⟨hw, hpred⟩ := hmem
  have hp : w.receipt_fingerprint = some f ∧ w.status = "verified" := by
    simpa using hpred
  refine ⟨hw, hp.2, hp.1, ?_⟩
  intro x hx hxs hxf
  exact hmin x (List.mem_filter.mpr ⟨hx, by simp [hxs, hxf]⟩)

theorem verifyFinalize_verified {env : VerifyEnv} {db1 : Db} {subId : String}
    {payload : DifyPayload} {s1 : DbReceiptSubmission} {f : String}
    (hfind : db1.submissions.find? (fun x => x.id = subId) = some s1)
    (hfs : vfFinalStatus payload = "verified")
    (hfp : vfFingerprint env payload = some f)
    (hclean : ∀ o ∈ db1.submissions, o.status = "verified" →
      o.receipt_fingerprint ≠ some f) :
    verifyFinalize env db1 subId payload =
      (.ok (vfPatch env payload s1), updateRow db1 subId (vfPatch env payload)) := by
  have hsfp : (vfPatch env payload s1).receipt_fingerprint = some f := by
    simp [vfPatch, finalPatch, hfs, hfp]
  have hviol : violatesVerifiedFpIndex db1 subId (vfPatch env payload s1) = false := by
    unfold violatesVerifiedFpIndex
    have hany : (db1.submissions.any fun x => (x.id ≠ subId) && (x.status = "verified") &&
        (x.receipt_fingerprint = some f)) = false := by
      rw [List.any_eq_false]
      intro x hx
      by_cases hs : x.status = "verified"
      · simp [hs, hclean x hx hs]
      · simp [hs]
    rw [hsfp, hany, Bool.and_false]
  have hok := updateSubmission_ok_of db1 subId (vfPatch env payload) s1 hfind hviol
  unfold verifyFinalize
  rw [hok]
  rfl

theorem verifyFinalize_duplicate {env : VerifyEnv} {db1 : Db} {subId : String}
    {payload : DifyPayload} {s1 : DbReceiptSubmission} {f : String}
    (hfind : db1.submissions.find? (fun x => x.id = subId) = some s1)
    (hfs : vfFinalStatus payload = "verified")
    (hfp : vfFingerprint env payload = some f)
    (hconf : ∃ o ∈ db1.submissions, o.id ≠ subId ∧ o.status = "verified" ∧
      o.receipt_fingerprint = some f) :
    verifyFinalize env db1 subId payload =
      (.ok (vfDupPatch payload f (getVerifiedSubmissionByFingerprint db1 f) s1),
        updateRow db1 subId
          (vfDupPatch payload f (getVerifiedSubmissionByFingerprint db1 f))) := by
  obtain ⟨o, ho, hone, hover, hofp⟩ := hconf
  have hsfp : (vfPatch env payload s1).receipt_fingerprint = some f := by
    simp [vfPatch, finalPatch, hfs, hfp]
  have hst : (vfPatch env payload s1).status = "verified" := by
    simp [vfPatch, finalPatch, hfs]
  have hviol : violatesVerifiedFpIndex db1 subId (vfPatch env payload s1) = true := by
    unfold violatesVerifiedFpIndex
    have hany : (db1.submissions.any fun x => (x.id ≠ subId) && (x.status = "verified") &&
        (x.receipt_fingerprint = some f)) = true := by
      rw [List.any_eq_true]
      refine ⟨o, ho, ?_⟩
      simp [hone, hover, hofp]
    rw [hsfp, hany, hst]
    rfl
  have herr := updateSubmission_error_of db1 subId (vfPatch env payload) s1 hfind hviol
  have hviol2 : violatesVerifiedFpIndex db1 subId
      (vfDupPatch payload f (getVerifiedSubmissionByFingerprint db1 f) s1) = false := by
    simp [violatesVerifiedFpIndex, vfDupPatch, duplicatePatch]
  have hok2 := updateSubmission_ok_of db1 subId
    (vfDupPatch payload f (getVerifiedSubmissionByFingerprint db1 f)) s1 hfind hviol2
  unfold verifyFinalize
  rw [herr]
  dsimp only
  rw [hfp]
  dsimp only
  rw [if_pos (show (vfFinalStatus payload = "verified" &&
    ("unique_violation" : String) = "unique_violation") = true by rw [hfs]; decide)]
  rw [hok2]
  rfl

/-- C1: when the final status is `verified` and persisting the fingerprint
hits the partial one-verified-fingerprint unique index, the submission is
re-finalized as `rejected` with `rejection_code = duplicate_receipt`,
`points_total = 0`, and `duplicate_of` set to the result of the
oldest-first (`created_at` ascending) lookup of the verified submission with
that fingerprint (first conjunct: that lookup indeed returns the oldest such
row); and two submissions with the same fingerprint whose finalizations are
serialized by the store end with exactly one `verified` and one `rejected`
with `duplicate_receipt`, whichever write wins. -/
theorem verify_duplicate_receipt_claim :
    (∀ (db : Db) (f : String) (w : DbReceiptSubmission),
      getVerifiedSubmissionByFingerprint db f = some w →
        w ∈ db.submissions ∧ w.status = "verified" ∧ w.receipt_fingerprint = some f ∧
        ∀ x ∈ db.submissions, x.status = "verified" → x.receipt_fingerprint = some f →
          w.created_at ≤ x.created_at)
    ∧ (∀ (env : VerifyEnv) (db : Db) (userId subId : String)
        (s0 : DbReceiptSubmission) (payload : DifyPayload) (f : String)
        (u : DbReceiptSubmission) (db' : Db),
      db.submissions.find? (fun s => s.id = subId) = some s0 →
      s0.user_id = userId → s0.status = "uploaded" →
      env.objectPresent = true → env.difyThrows = false → env.payload = some payload →
      vfFinalStatus payload = "verified" →
      vfFingerprint env payload = some f →
      (∃ o ∈ db.submissions, o.id ≠ subId ∧ o.status = "verified" ∧
        o.receipt_fingerprint = some f) →
      verifySubmission env db userId subId = (.ok u, db') →
        u.status = "rejected" ∧ u.rejection_code = some "duplicate_receipt" ∧
        u.points_total = 0 ∧
        u.duplicate_of =
          (getVerifiedSubmissionByFingerprint (claimVerifying db subId) f).map
            (fun w => w.id))
    ∧ (∀ (envA envB : VerifyEnv) (db1 : Db) (a b : String)
        (sA sB : DbReceiptSubmission) (payloadA payloadB : DifyPayload) (f : String),
      a ≠ b →
      db1.submissions.find? (fun x => x.id = a) = some sA →
      db1.submissions.find? (fun x => x.id = b) = some sB →
      (∀ o ∈ db1.submissions, o.status = "verified" → o.receipt_fingerprint ≠ some f) →
      vfFinalStatus payloadA = "verified" → vfFingerprint envA payloadA = some f →
      vfFinalStatus payloadB = "verified" → vfFingerprint envB payloadB = some f →
      ∃ uA db2 uB db3,
        verifyFinalize envA db1 a payloadA = (.ok uA, db2) ∧
        verifyFinalize envB db2 b payloadB = (.ok uB, db3) ∧
        uA.status = "verified" ∧ uA.receipt_fingerprint = some f ∧
        uB.status = "rejected" ∧ uB.rejection_code = some "duplicate_receipt" ∧
        uB.points_total = 0) := by
  refine ⟨getVerifiedSubmissionByFingerprint_oldest, ?_, ?_⟩
  · intro env db userId subId s0 payload f u db' hfind huser hst hobj hdify hpay
      hfs hfp hconf heq
    unfold verifySubmission at heq
    rw [hfind] at heq
    dsimp only at heq
    rw [if_neg (fun hne => hne huser)] at heq
    rw [if_neg (show ¬ ((s0.status = "verified" || s0.status = "rejected" ||
      s0.status = "not_claimable") = true) by rw [hst]; decide)] at heq
    rw [if_neg (show ¬ (s0.status = "pending_upload") by rw [hst]; decide)] at heq
    rw [if_neg (show ¬ (s0.status = "verifying") by rw [hst]; decide)] at heq
    have hclaim : updateSubmissionStatusIfCurrent db subId "uploaded" "verifying" =
        (claimVerifying db subId, some { s0 with status := "verifying" }) := by
      unfold updateSubmissionStatusIfCurrent claimVerifying
      rw [hfind]
      dsimp only
      rw [if_pos hst]
    rw [hclaim] at heq
    dsimp only at heq
    rw [if_neg (show ¬ (env.objectPresent = false) by rw [hobj]; decide)] at heq
    rw [if_neg (show ¬ (env.difyThrows = true) by rw [hdify]; decide)] at heq
    rw [hpay] at heq
    dsimp only at heq
    have hgid : ∀ x : DbReceiptSubmission,
        ((fun x => if x.id = subId && x.status = "uploaded" then
          { x with status := "verifying" } else x) x).id = x.id := by
      intro x
      dsimp only
      split <;> rfl
    have hid0 : s0.id = subId := by simpa using List.find?_some hfind
    have hfind1 : (claimVerifying db subId).submissions.find? (fun x => x.id = subId) =
        some { s0 with status := "verifying" } := by
      unfold claimVerifying
      dsimp only
      rw [find?_map_of_id_preserved _ hgid, hfind]
      simp [hid0, hst]
    have hconf1 : ∃ o ∈ (claimVerifying db subId).submissions,
        o.id ≠ subId ∧ o.status = "verified" ∧ o.receipt_fingerprint = some f := by
      obtain ⟨o, ho, hone, hover, hofp⟩ := hconf
      refine ⟨o, ?_, hone, hover, hofp⟩
      unfold claimVerifying
      dsimp only
      have hoeq : (fun x => if x.id = subId && x.status = "uploaded" then
          { x with status := "verifying" } else x) o = o := by
        simp [hone]
      exact hoeq ▸ List.mem_map_of_mem _ ho
    have hdup := verifyFinalize_duplicate hfind1 hfs hfp hconf1
    rw [hdup] at heq
    simp only [Prod.mk.injEq, VerifyOutcome.ok.injEq] at heq
    obtain ⟨rfl, rfl⟩ := heq
    refine ⟨rfl, rfl, rfl, rfl⟩
  · intro envA envB db1 a b sA sB payloadA payloadB f hab hfA hfB hclean
      hfsA hfpA hfsB hfpB
    have hA := verifyFinalize_verified hfA hfsA hfpA hclean
    have hgid : ∀ x : DbReceiptSubmission,
        ((fun x => if x.id = a then vfPatch envA payloadA x else x) x).id = x.id := by
      intro x
      dsimp only
      split
      · simp [vfPatch, finalPatch]
      · rfl
    have hsAid : sA.id = a := by simpa using List.find?_some hfA
    have hsBid : sB.id = b := by simpa using List.find?_some hfB
    have hfindB2 : (updateRow db1 a (vfPatch envA payloadA)).submissions.find?
        (fun x => x.id = b) = some sB := by
      unfold updateRow
      dsimp only
      rw [find?_map_of_id_preserved _ hgid, hfB]
      simp [hsBid, Ne.symm hab]
    have hconf2 : ∃ o ∈ (updateRow db1 a (vfPatch envA payloadA)).submissions,
        o.id ≠ b ∧ o.status = "verified" ∧ o.receipt_fingerprint = some f := by
      refine ⟨vfPatch envA payloadA sA, ?_, ?_, ?_, ?_⟩
      · unfold updateRow
        dsimp only
        have hmap : (fun x => if x.id = a then vfPatch envA payloadA x else x) sA =
            vfPatch envA payloadA sA := by
          simp [hsAid]
        exact hmap ▸ List.mem_map_of_mem _ (List.mem_of_find?_eq_some hfA)
      · have hidp : (vfPatch envA payloadA sA).id = sA.id := by
          simp [vfPatch, finalPatch]
        rw [hidp, hsAid]
        exact hab
      · simp [vfPatch, finalPatch, hfsA]
      · simp [vfPatch, finalPatch, hfsA, hfpA]
    have hB := verifyFinalize_duplicate hfindB2 hfsB hfpB hconf2
    refine ⟨vfPatch envA payloadA sA, updateRow db1 a (vfPatch envA payloadA),
      vfDupPatch payloadB f
        (getVerifiedSubmissionByFingerprint (updateRow db1 a (vfPatch envA payloadA)) f) sB,
      updateRow (updateRow db1 a (vfPatch envA payloadA)) b
        (vfDupPatch payloadB f
          (getVerifiedSubmissionByFingerprint (updateRow db1 a (vfPatch envA payloadA)) f)),
      hA, hB, ?_, ?_, rfl, rfl, rfl⟩
    · simp [vfPatch, finalPatch, hfsA]
    · simp [vfPatch, finalPatch, hfsA, hfpA]

/-- Fingerprint payload of the sample receipt (minute `2026-02-04 08:52`, one
item `water|500|1`), under the identity hash. -/
def wFp : String := "v1|2026-02-04 08:52|water|500|1"

def wPayloadV : DifyPayload :=
  { drinkList := some [⟨.jstr "Water", .jnum 500, .jnum 1⟩],
    retinfoIsAvaild := some "true", timeThreshold := some "false",
    retinfoReceiptTime := some "2026-02-04 08:52:00" }

def wEnvV : VerifyEnv :=
  { objectPresent := true, difyThrows := false, payload := some wPayloadV, hash := id }

def wConflict : DbReceiptSubmission :=
  { id := "s2", user_id := "u2", client_submission_id := "cs2", status := "verified",
    image_bucket := "b", image_key := "k2", image_content_type := some "image/png",
    dify_drink_list := none, receipt_time_raw := none, retinfo_is_availd := some "true",
    time_threshold := some "false", points_total := 2, receipt_fingerprint := some wFp,
    rejection_code := none, duplicate_of := none, created_at := 5 }

def wDbConflict : Db :=
  { submissions := [wUploadedSub, wConflict], claims := [], rates := [] }

def wDup : DbReceiptSubmission :=
  vfDupPatch wPayloadV wFp
    (getVerifiedSubmissionByFingerprint (claimVerifying wDbConflict "s1") wFp)
    { wUploadedSub with status := "verifying" }

def wDbDup : Db :=
  updateRow (claimVerifying wDbConflict "s1") "s1"
    (vfDupPatch wPayloadV wFp
      (getVerifiedSubmissionByFingerprint (claimVerifying wDbConflict "s1") wFp))

def wUploadedSub2 : DbReceiptSubmission :=
  { id := "s2", user_id := "u2", client_submission_id := "cs2", status := "uploaded",
    image_bucket := "b", image_key := "k2", image_content_type := some "image/png",
    dify_drink_list := none, receipt_time_raw := none, retinfo_is_availd := none,
    time_threshold := none, points_total := 0, receipt_fingerprint := none,
    rejection_code := none, duplicate_of := none, created_at := 0 }

def wDbRace : Db :=
  { submissions := [wUploadedSub, wUploadedSub2], claims := [], rates := [] }

theorem verify_duplicate_receipt_claim_witness :
    (wConflict ∈ wDbConflict.submissions ∧ wConflict.status = "verified" ∧
      wConflict.receipt_fingerprint = some wFp ∧
      ∀ x ∈ wDbConflict.submissions, x.status = "verified" →
        x.receipt_fingerprint = some wFp → wConflict.created_at ≤ x.created_at)
    ∧ (wDup.status = "rejected" ∧ wDup.rejection_code = some "duplicate_receipt" ∧
      wDup.points_total = 0 ∧
      wDup.duplicate_of = (getVerifiedSubmissionByFingerprint
        (claimVerifying wDbConflict "s1") wFp).map (fun w => w.id))
    ∧ (∃ uA db2 uB db3,
        verifyFinalize wEnvV wDbRace "s1" wPayloadV = (.ok uA, db2) ∧
        verifyFinalize wEnvV db2 "s2" wPayloadV = (.ok uB, db3) ∧
        uA.status = "verified" ∧ uA.receipt_fingerprint = some wFp ∧
        uB.status = "rejected" ∧ uB.rejection_code = some "duplicate_receipt" ∧
        uB.points_total = 0) :=
  ⟨verify_duplicate_receipt_claim.1 wDbConflict wFp wConflict (by decide),
   verify_duplicate_receipt_claim.2.1 wEnvV wDbConflict "u" "s1" wUploadedSub
     wPayloadV wFp wDup wDbDup (by decide) rfl rfl rfl rfl rfl (by decide) (by decide)
     ⟨wConflict, by decide, by decide, rfl, rfl⟩ (by rfl),
   verify_duplicate_receipt_claim.2.2 wEnvV wEnvV wDbRace "s1" "s2" wUploadedSub
     wUploadedSub2 wPayloadV wPayloadV wFp (by decide) (by decide) (by decide)
     (by decide) (by decide) (by decide) (by decide) (by decide)⟩

/-! ## Submission init (`apps/api/src/index.ts`, `POST /submissions/init`) -/

/-- `ALLOWED_UPLOAD_CONTENT_TYPES` from `index.ts`. -/
def ALLOWED_UPLOAD_CONTENT_TYPES : List String :=
  ["image/png", "image/jpeg", "image/webp", "image/heic", "image/heif",
    "application/octet-stream"]

/-- JS `ct.split(';')[0]`: the prefix before the first `;`. -/
def contentTypeMain (ct : String) : String :=
  ⟨ct.data.takeWhile (fun c => c ≠ ';')⟩

/-- The handler's normalization `content_type.split(';')[0]?.trim().toLowerCase()`. -/
def normalizeContentType (ct : String) : String :=
  strLower (jsTrim (contentTypeMain ct))

/-- `ext` derivation of the handler. -/
def extFor (contentType : String) : String :=
  if contentType = "image/png" then "png"
  else if contentType = "image/jpeg" then "jpg"
  else if contentType = "image/webp" then "webp"
  else if contentType = "image/heic" || contentType = "image/heif" then "heic"
  else "bin"

/-- `repo.getSubmissionByClientId`: lookup by the
`(user_id, client_submission_id)` idempotency key. -/
def getSubmissionByClientId (db : Db) (userId csid : String) :
    Option DbReceiptSubmission :=
  db.submissions.find? (fun s => s.user_id = userId && s.client_submission_id = csid)

/-- `repo.createSubmission`: an insert that fails with a uniqueness violation
when a row for `(user_id, client_submission_id)` already exists. -/
def insertSubmission (db : Db) (row : DbReceiptSubmission) : Except String Db :=
  if db.submissions.any (fun s => s.user_id = row.user_id &&
      s.client_submission_id = row.client_submission_id) then .error "unique_violation"
  else .ok { db with submissions := db.submissions ++ [row] }

inductive InitOutcome where
  | ok (sub : DbReceiptSubmission) (uploadIssued : Bool)
  | invalidBody
  | unsupportedContentType
  | internalError
deriving DecidableEq

/-- The init operation (`POST /submissions/init`). `client_submission_id` is
assumed well-formed (the zod UUID check is not modelled); the zod
`min(1)` length check on `content_type` is. The presigned-upload payload is
reduced to the `uploadIssued` flag (issued only for `pending_upload` rows on
the idempotent-return path, always for a fresh row). -/
def initSubmission (db : Db) (userId ccid contentType newId bucket month day : String)
    (now : Nat) : InitOutcome × Db :=
  if contentType = "" then (.invalidBody, db)
  else
    match getSubmissionByClientId db userId ccid with
    | some existing => (.ok existing (existing.status = "pending_upload"), db)
    | none =>
        let ct := normalizeContentType contentType
        if ALLOWED_UPLOAD_CONTENT_TYPES.contains ct = false then
          (.unsupportedContentType, db)
        else
          let row : DbReceiptSubmission :=
            { id := newId, user_id := userId, client_submission_id := ccid,
              status := "pending_upload", image_bucket := bucket,
              image_key := "uploads/" ++ month ++ "/" ++ day ++ "/" ++ newId ++ "."
                ++ extFor ct,
              image_content_type := some ct, dify_drink_list := none,
              receipt_time_raw := none, retinfo_is_availd := none,
              time_threshold := none, points_total := 0, receipt_fingerprint := none,
              rejection_code := none, duplicate_of := none, created_at := now }
          match insertSubmission db row with
          | .ok db' => (.ok row true, db')
          | .error _ =>
              match getSubmissionByClientId db userId ccid with
              | some again => (.ok again (again.status = "pending_upload"), db)
              | none => (.internalError, db)

/-- C9 counterexample: when a submission already exists for
`(user_id, client_submission_id)`, init returns it even though the request's
`content_type` (`text/plain`) is not in the allow-list — it does not fail
with `unsupported_content_type`, contradicting the claim as stated. -/
theorem initSubmission_claim_counterexample :
    ALLOWED_UPLOAD_CONTENT_TYPES.contains (normalizeContentType "text/plain") = false
    ∧ initSubmission sampleDbPoints "u" "cs1" "text/plain" "new" "b" "m" "d" 1 =
      (.ok sampleVerifiedSub false, sampleDbPoints)
    ∧ (initSubmission sampleDbPoints "u" "cs1" "text/plain" "new" "b" "m" "d" 1).1 ≠
      InitOutcome.unsupportedContentType := by
  refine ⟨by decide, by decide, by decide⟩

/-- C9 (amended): for every init request with a non-empty `content_type`
whose normalized form (parameters after `;` stripped, trimmed, lower-cased)
is not in the allow-list, and for which no submission yet exists for
`(user_id, client_submission_id)`, init fails with
`unsupported_content_type` and creates no submission (the store is
unchanged). -/
theorem initSubmission_claim :
    ∀ (db : Db) (userId ccid contentType newId bucket month day : String) (now : Nat),
      contentType ≠ "" →
      getSubmissionByClientId db userId ccid = none →
      ALLOWED_UPLOAD_CONTENT_TYPES.contains (normalizeContentType contentType) = false →
      initSubmission db userId ccid contentType newId bucket month day now =
        (.unsupportedContentType, db) := by
  intro db userId ccid contentType newId bucket month day now hne hnone hct
  unfold initSubmission
  rw [if_neg hne, hnone]
  dsimp only
  rw [if_pos hct]

theorem initSubmission_claim_witness :
    initSubmission { submissions := [], claims := [], rates := [] }
      "u" "cs1" "text/plain" "new" "b" "m" "d" 1 =
      (.unsupportedContentType, { submissions := [], claims := [], rates := [] }) :=
  initSubmission_claim { submissions := [], claims := [], rates := [] }
    "u" "cs1" "text/plain" "new" "b" "m" "d" 1 (by decide) (by decide) (by decide)
